import Mathlib

/-!
Verification development for the simulation core of `src/game.js`
(Ghost Chase Platformer, the v2 variant, lines 1-1270 of the file).

The JavaScript core is shallowly embedded: JS numbers are modelled as
exact rationals (`ℚ`), entity records as Lean structures, and each
per-tick mutation of the global state as a pure state-passing function.
Everything that the source draws from `Math.random()` and every
transcendental evaluation (`Math.sin`, `Math.pow` inside the scroll
easing) is supplied through an explicit oracle structure `Env`: the
embedded functions compute exactly the source's arithmetic on whatever
values the oracle provides, so every concrete run of the game
corresponds to some oracle value.  Purely cosmetic effects that the
spec places out of scope (particles, screen shake, flashes, audio,
sprite drawing, the HUD, `localStorage` persistence and the cosmetic
`color`/`bob` fields) are omitted.
-/

namespace GhostChase

/-- Axis-aligned box, as used by `aabb` in the source. -/
structure Box where
  x : ℚ
  y : ℚ
  w : ℚ
  h : ℚ
deriving DecidableEq

/-- `clamp(v, a, b) = Math.max(a, Math.min(b, v))` from the source utils. -/
def clamp (v a b : ℚ) : ℚ := max a (min b v)

/-- `lerp(a, b, t) = a + (b - a) * t` from the source utils. -/
def lerp (a b t : ℚ) : ℚ := a + (b - a) * t

/-- The AABB overlap test of the source:
`a.x < b.x + b.w && a.x + a.w > b.x && a.y < b.y + b.h && a.y + a.h > b.y`. -/
def aabb (a b : Box) : Prop :=
  a.x < b.x + b.w ∧ a.x + a.w > b.x ∧ a.y < b.y + b.h ∧ a.y + a.h > b.y

instance (a b : Box) : Decidable (aabb a b) := by
  unfold aabb; infer_instance

/-- A terrain segment (`ground` entries have `h = 40` at `y = groundY`,
`platforms` entries have `h = 10`). -/
structure Seg where
  x : ℚ
  y : ℚ
  w : ℚ
  h : ℚ
deriving DecidableEq

/-- `groundY` from the source. -/
def groundY : ℚ := 140

/-- The `player` record of the source, minus the cosmetic `color` field. -/
structure Player where
  x : ℚ
  y : ℚ
  w : ℚ
  h : ℚ
  vx : ℚ
  vy : ℚ
  onGround : Bool
  hasSword : Bool
  swordUntil : ℚ
  attackUntil : ℚ
  attackDir : String
  coyote : ℚ
  jumpBuffer : ℚ
  rainbow : Bool
  power : ℚ
  sprinting : Bool
  combo : ℚ
  comboUntil : ℚ
deriving DecidableEq

/-- The `ghost` record of the source. -/
structure Ghost where
  x : ℚ
  y : ℚ
  w : ℚ
  h : ℚ
  speed : ℚ
  pushedBackUntil : ℚ
  state : String
  stateTime : ℚ
  spawnedAt : ℚ
deriving DecidableEq

/-- The `sword` pickup object of the source, minus the cosmetic `bob` field. -/
structure Sword where
  x : ℚ
  y : ℚ
  w : ℚ
  h : ℚ
  active : Bool
deriving DecidableEq

/-- One iteration of the upper-platform generator consumes (at most) these
random draws: the `pickGenMode` roll, the run-length `irand`, and the
`gap`/`w`/vertical-delta `irand` draws of the chosen mood branch. -/
structure PlatChoice where
  modeRoll : ℚ
  modeLeft : ℤ
  gap : ℚ
  w : ℚ
  dy : ℚ
deriving DecidableEq

/-- Oracle for everything the source obtains from `Math.random()`,
`Math.sin` and `Math.pow` during one tick.  Each field is the value the
corresponding source expression evaluates to on that tick. -/
structure Env where
  /-- per-iteration draws of `ensureGroundAhead`: the `Math.random() < GROUND_GAP_CHANCE`
  coin and the `irand` width/gap value of that iteration. -/
  groundChoices : List (Bool × ℚ)
  /-- per-iteration draws of `ensurePlatformsAhead`. -/
  platChoices : List PlatChoice
  /-- the `irand(0, candidates.length - 1)` index of `maybeSpawnSword`. -/
  swordIdx : ℕ
  /-- the lunge-trigger `Math.random()` of `updateGhost`. -/
  lungeRoll : ℚ
  /-- the phase-4 blink `Math.random()` of `updateGhost`. -/
  blinkRoll : ℚ
  /-- the value of `Math.sin(tSec * 3.1)` on this tick. -/
  sinVal : ℚ
  /-- the value of `Math.pow(0.001, dt)` on this tick. -/
  powVal : ℚ
  /-- the `Math.random()` of `rollPlayerStyle` (rainbow with probability 1%). -/
  styleRoll : ℚ
  /-- the `(irand(78,120), irand(56,110), irand(90,160))` draws of the ten
  seeded platforms of `seedWorld`. -/
  seedChoices : List (ℚ × ℚ × ℚ)
  /-- the `irand(4, 7)` run length of `seedWorld`. -/
  seedModeLeft : ℤ
  /-- the `irand(92, 118)` initial platform height of `seedWorld`. -/
  seedPlatY : ℚ
deriving DecidableEq

/-- The debounced input snapshot: the level-triggered `keys` set and the
edge-triggered `pressed` set. -/
structure Input where
  keys : List String
  pressed : List String
deriving DecidableEq

/-- The mutable simulation state owned by the driver: entities, terrain,
camera/scroll scalars, generator mood, sword spawn timer and the session
lifecycle flags. -/
structure GameState where
  player : Player
  ghost : Ghost
  ground : List Seg
  platforms : List Seg
  camX : ℚ
  baseScroll : ℚ
  targetScroll : ℚ
  ghostsRepelled : ℚ
  genMode : String
  genModeLeft : ℤ
  lastPlatY : ℚ
  sword : Option Sword
  nextSwordSpawnAt : ℚ
  started : Bool
  gameOver : Bool
  gameOverReason : String
  startedAt : ℚ
  best : ℚ
deriving DecidableEq

/-! ## World generator (`ensureGroundAhead`, `ensurePlatformsAhead`) -/

/-- The initial frontier scan of `ensureGroundAhead`: `far` starts at
`-Infinity`, is maxed with every `g.x + g.w`, and falls back to
`camX - 500` when there are no segments (the source's `-Infinity` check). -/
def farInit (d : ℚ) (l : List Seg) : ℚ :=
  match l with
  | [] => d
  | g :: t => t.foldl (fun a s => max a (s.x + s.w)) (g.x + g.w)

/-- The initial frontier scan of `ensurePlatformsAhead`: `far` starts at `0`
and is maxed with every `p.x + p.w`. -/
def platFarInit (l : List Seg) : ℚ :=
  l.foldl (fun a s => max a (s.x + s.w)) 0

/-- The `while (far < camX + W + 600)` loop of `ensureGroundAhead`.  Each
iteration flips the gap coin: a gap only advances `far`, a segment draw
pushes `{x: far, y: groundY, w, h: 40}` and advances `far` by `w`.  The
oracle list carries one `(coin, irand value)` pair per iteration; `none`
means the supplied draws were exhausted before the loop condition failed. -/
def groundLoop (bound : ℚ) (cs : List (Bool × ℚ)) (far : ℚ) (segs : List Seg) :
    Option (ℚ × List Seg) :=
  match cs with
  | [] => if bound ≤ far then some (far, segs) else none
  | c :: rest =>
    if bound ≤ far then some (far, segs)
    else if c.1 then groundLoop bound rest (far + c.2) segs
    else groundLoop bound rest (far + c.2) (segs ++ [⟨far, groundY, c.2, 40⟩])

/-- `ensureGroundAhead` of the source: frontier scan, generation loop, then
cleanup of every segment whose trailing edge is behind `camX - 900`.
Returns the final value of the internal cursor `far` together with the
resulting segment list. -/
def ensureGroundAhead (W camX : ℚ) (cs : List (Bool × ℚ)) (ground : List Seg) :
    Option (ℚ × List Seg) :=
  match groundLoop (camX + W + 600) cs (farInit (camX - 500) ground) ground with
  | none => none
  | some (far, segs) => some (far, segs.filter (fun g => !decide (g.x + g.w < camX - 900)))

/-- `pickGenMode` of the source on the supplied `Math.random()` value. -/
def pickGenMode (r : ℚ) : String :=
  if r < 55/100 then "easy" else if r < 8/10 then "stairs" else "gaps"

/-- The `while (far < camX + W + 420)` loop of `ensurePlatformsAhead`:
resample the mood when its run length is spent, decrement the run length,
draw `gap`/`w`/`y` in the mood's ranges (the drawn values come from the
oracle), push the platform at `far + gap` and advance `far` past it. -/
def platLoop (bound : ℚ) (cs : List PlatChoice) (gm : String) (gml : ℤ)
    (lpy far : ℚ) (segs : List Seg) : Option (String × ℤ × ℚ × ℚ × List Seg) :=
  match cs with
  | [] => if bound ≤ far then some (gm, gml, lpy, far, segs) else none
  | c :: rest =>
    if bound ≤ far then some (gm, gml, lpy, far, segs)
    else
      let gm2 := if gml ≤ 0 then pickGenMode c.modeRoll else gm
      let gml2 := (if gml ≤ 0 then c.modeLeft else gml) - 1
      let y := if gm2 = "easy" then clamp (lpy + c.dy) 76 124
               else if gm2 = "stairs" then clamp (lpy + c.dy) 68 124
               else clamp (lpy + c.dy) 70 124
      let nextX := far + c.gap
      platLoop bound rest gm2 gml2 y (nextX + c.w) (segs ++ [⟨nextX, y, c.w, 10⟩])

/-- `ensurePlatformsAhead` of the source: frontier scan, generation loop
(carrying the `genMode`/`genModeLeft`/`lastPlatY` mood state), then cleanup
of every platform whose trailing edge is behind `camX - 600`.  Returns the
updated mood state, the final cursor and the platform list. -/
def ensurePlatformsAhead (W camX : ℚ) (cs : List PlatChoice) (gm : String)
    (gml : ℤ) (lpy : ℚ) (platforms : List Seg) :
    Option (String × ℤ × ℚ × ℚ × List Seg) :=
  match platLoop (camX + W + 420) cs gm gml lpy (platFarInit platforms) platforms with
  | none => none
  | some (gm2, gml2, lpy2, far, segs) =>
    some (gm2, gml2, lpy2, far, segs.filter (fun p => !decide (p.x + p.w < camX - 600)))

/-- `true` iff some live segment's right edge `x + w` reaches `b`. -/
def hasEdgeBeyond (b : ℚ) (l : List Seg) : Bool :=
  l.any (fun s => decide (b ≤ s.x + s.w))

/-! ## Feel tuning constants -/

def GRAVITY : ℚ := 1100
def JUMP_V : ℚ := 380
def MOVE_AIR : ℚ := 95/100
def MOVE_GROUND : ℚ := 82/100
def COYOTE_TIME : ℚ := 12/100
def JUMP_BUFFER : ℚ := 12/100
def JUMP_CUT : ℚ := 55/100

/-! ## Input decoding helpers -/

/-- `wasPressed(" ") || wasPressed("arrowup") || wasPressed("d") || wasPressed("arrowright")`:
the title-screen start trigger. -/
def startPressed (inp : Input) : Bool :=
  inp.pressed.contains " " || inp.pressed.contains "arrowup" ||
    inp.pressed.contains "d" || inp.pressed.contains "arrowright"

/-- `keys.has(" ") || keys.has("arrowup")`: the level-triggered jump hold. -/
def jumpHeld (inp : Input) : Bool :=
  inp.keys.contains " " || inp.keys.contains "arrowup"

/-! ## Player appearance and sword spawning -/

/-- `rollPlayerStyle` of the source on the supplied `Math.random()` value:
1%-probability rainbow variant with power `1.25`, otherwise power `1.0`
(the random hue is cosmetic and omitted). -/
def rollPlayerStyle (r : ℚ) (p : Player) : Player :=
  let rainbow := decide (r < 1/100)
  { p with rainbow := rainbow, power := if rainbow then 5/4 else 1 }

/-- `maybeSpawnSword` of the source: once the 20-second timer elapses, pick a
forward platform (`p.x > camX + 90 && p.x < camX + W + 420`) — the oracle
index selects among the candidates — or fall back to a ground position,
and (re)create the active pickup. -/
def maybeSpawnSword (W : ℚ) (env : Env) (tSec : ℚ) (st : GameState) : GameState :=
  if tSec < st.nextSwordSpawnAt then st
  else
    let candidates := st.platforms.filter
      (fun p => decide (st.camX + 90 < p.x) && decide (p.x < st.camX + W + 420))
    match candidates.get? (env.swordIdx % candidates.length) with
    | some p =>
      { st with sword := some ⟨p.x + p.w * (1/2) - 4, p.y - 12, 10, 12, true⟩,
                nextSwordSpawnAt := tSec + 20 }
    | none =>
      { st with sword := some ⟨st.camX + W + 140, groundY - 22, 10, 12, true⟩,
                nextSwordSpawnAt := tSec + 20 }

/-! ## Game over and restart -/

/-- `triggerGameOver(reason)` of the source: guarded single transition to the
`over` state, recording the reason and folding the run time into `best`
(the `localStorage` write and the audio/shake effects are cosmetic). -/
def triggerGameOver (reason : String) (nowMs : ℚ) (st : GameState) : GameState :=
  if st.gameOver then st
  else { st with gameOver := true, gameOverReason := reason,
                 best := max st.best ((nowMs - st.startedAt) / 1000) }

/-- The ten-platform seeding loop of `seedWorld`; each iteration consumes an
oracle triple `(irand(78,120), irand(56,110), irand(90,160))`, using an
in-range default when the supplied list is shorter than the loop. -/
def seedPlats (cs : List (ℚ × ℚ × ℚ)) (x : ℚ) : ℕ → List Seg
  | 0 => []
  | n + 1 =>
    let c := cs.headD (78, 56, 90)
    ⟨x, c.1, c.2.1, 10⟩ :: seedPlats cs.tail (x + c.2.2) n

/-- `restart()` followed by the `seedWorld()` it calls: resets the lifecycle
flags, the player (rolling a fresh style), the ghost, the camera/scroll
scalars, the terrain (one long stable ground segment plus ten seeded
platforms from `x = 160`), the sword timer and the generator mood.
Fields the source leaves untouched (such as `best` and `ghost.speed`)
persist. -/
def restart (env : Env) (nowMs : ℚ) (st : GameState) : GameState :=
  { st with
    gameOver := false
    gameOverReason := ""
    started := false
    player := rollPlayerStyle env.styleRoll
      { st.player with
        x := 70, y := 40, vx := 0, vy := 0, onGround := false,
        coyote := 0, jumpBuffer := 0, hasSword := false, swordUntil := 0,
        attackUntil := 0, attackDir := "right", combo := 0, comboUntil := 0 }
    ghost := { st.ghost with
      x := -120, y := 60, pushedBackUntil := 0,
      state := "spawn", stateTime := 0, spawnedAt := 0 }
    startedAt := nowMs
    camX := 0
    baseScroll := 0
    targetScroll := 90
    ghostsRepelled := 0
    ground := [⟨-600, groundY, 2600, 40⟩]
    platforms := seedPlats env.seedChoices 160 10
    sword := none
    nextSwordSpawnAt := 3
    genMode := "easy"
    genModeLeft := env.seedModeLeft
    lastPlatY := env.seedPlatY }

/-! ## Physics and collision resolution -/

/-- Lines 1007-1038 of `step`: jump buffering, coyote countdown, sprint flag,
horizontal acceleration and damping, the movement-mode speed cap, gravity,
integration, and the fixed on-screen lane clamp `clamp(x, 30, 175)`. -/
def physIntegrate (inp : Input) (dt : ℚ) (p : Player) : Player :=
  let jumpPressed := inp.pressed.contains " " || inp.pressed.contains "arrowup"
  let coyote := p.coyote - dt
  let jumpBuffer := if jumpPressed then JUMP_BUFFER else p.jumpBuffer - dt
  let sprinting := inp.keys.contains "shift"
  let right := inp.keys.contains "arrowright" || inp.keys.contains "d"
  let left := inp.keys.contains "arrowleft" || inp.keys.contains "a"
  let ax := 900 * (if sprinting then 108/100 else 1)
  let vx := p.vx + (if right then ax * dt else 0) + (if left then -(ax * dt) else 0)
  let vx := vx * (if p.onGround then MOVE_GROUND else MOVE_AIR)
  let speedCap := (if sprinting then 220 else 180) * p.power
  let vx := clamp vx (-(speedCap * (9/10))) speedCap
  let vy := p.vy + GRAVITY * dt
  let x := clamp (p.x + vx * dt) 30 175
  let y := p.y + vy * dt
  { p with coyote := coyote, jumpBuffer := jumpBuffer, sprinting := sprinting,
           vx := vx, vy := vy, x := x, y := y }

/-- The landing test of lines 1050-1078 for one segment: horizontal overlap
in world space, previous-tick bottom edge at or above the top (1px
tolerance), non-negative vertical velocity, and current bottom edge within
the 6px skin of the top. -/
def landable (worldX pw wasAbove vy ybot : ℚ) (s : Seg) : Bool :=
  decide (s.x < worldX + pw) && decide (worldX < s.x + s.w) &&
    decide (wasAbove ≤ s.y + 1) && decide (0 ≤ vy) &&
    decide (s.y ≤ ybot) && decide (ybot ≤ s.y + 6)

/-- Lines 1040-1078 of `step`: reset `onGround`, scan ground segments then
platforms for the first qualifying landing, and on success `landOn`: snap
to the surface, zero `vy`, set grounded and re-arm the coyote window. -/
def resolveCollisions (ground platforms : List Seg) (camX dt : ℚ) (p : Player) : Player :=
  let worldX := p.x + camX
  let wasAbove := (p.y - p.vy * dt) + p.h
  let test := landable worldX p.w wasAbove p.vy (p.y + p.h)
  match ground.find? test with
  | some g => { p with y := g.y - p.h, vy := 0, onGround := true, coyote := COYOTE_TIME }
  | none =>
    match platforms.find? test with
    | some q => { p with y := q.y - p.h, vy := 0, onGround := true, coyote := COYOTE_TIME }
    | none => { p with onGround := false }

/-- Line 1081: falling past `H + 60` is a fatal transition. -/
def fallCheck (H nowMs : ℚ) (st : GameState) : GameState :=
  if st.player.y > H + 60 then triggerGameOver "You fell!" nowMs st else st

/-- Lines 1084-1096: the jump fires iff the buffered press and the coyote
window are both still positive, launching at `-JUMP_V * power` and
consuming both countdowns. -/
def jumpResolve (p : Player) : Player :=
  if 0 < p.jumpBuffer ∧ 0 < p.coyote then
    { p with vy := -(JUMP_V * p.power), onGround := false, coyote := 0, jumpBuffer := 0 }
  else p

/-- Lines 1099-1100: releasing the jump while ascending cuts `vy` by `JUMP_CUT`. -/
def jumpCutPhase (held : Bool) (p : Player) : Player :=
  if ¬held ∧ p.vy < 0 then { p with vy := p.vy * JUMP_CUT } else p

/-! ## Combat -/

/-- Lines 1103-1112: triggering an attack while holding the sword and no
window is active latches a 140ms window and the cardinal direction toward
the ghost's centre (larger axis wins, sign picks the side). -/
def attackDirPhase (attackPressed : Bool) (nowMs : ℚ) (st : GameState) : GameState :=
  if attackPressed ∧ st.player.hasSword ∧ st.player.attackUntil ≤ nowMs then
    let dx := (st.ghost.x + st.ghost.w * (1/2)) - (st.player.x + st.player.w * (1/2))
    let dy := (st.ghost.y + st.ghost.h * (1/2)) - (st.player.y + st.player.h * (1/2))
    let dir := if |dx| > |dy| then (if dx > 0 then "right" else "left")
               else (if dy > 0 then "down" else "up")
    { st with player := { st.player with attackUntil := nowMs + 140, attackDir := dir } }
  else st

/-- Lines 1114-1133: touching the active pickup consumes it, grants the sword
(9500ms for the rainbow variant, else 6500ms from `now`) and resets the
combo. -/
def pickupPhase (nowMs : ℚ) (st : GameState) : GameState :=
  match st.sword with
  | none => st
  | some sw =>
    if sw.active then
      if aabb ⟨st.player.x, st.player.y, st.player.w, st.player.h⟩
          ⟨sw.x - st.camX, sw.y, sw.w, sw.h⟩ then
        { st with
          sword := some { sw with active := false },
          player := { st.player with
            hasSword := true,
            swordUntil := nowMs + (if st.player.rainbow then 9500 else 6500),
            combo := 0, comboUntil := 0 } }
      else st
    else st

/-- Lines 1136-1141: past the expiry timestamp the sword is dropped, the
attack window cancelled and the combo cleared. -/
def expiryPhase (nowMs : ℚ) (st : GameState) : GameState :=
  if st.player.hasSword ∧ st.player.swordUntil < nowMs then
    { st with player := { st.player with
        hasSword := false, attackUntil := 0, combo := 0, comboUntil := 0 } }
  else st

/-- Line 1150: the combo decays to zero when no hit landed within its window. -/
def comboDecay (nowMs : ℚ) (st : GameState) : GameState :=
  if 0 < st.player.combo ∧ st.player.comboUntil < nowMs then
    { st with player := { st.player with combo := 0 } }
  else st

/-- The directional hit volume of lines 1153-1159 (the `switch` leaves `hit`
undefined on any other direction string). -/
def hitBoxFor (p : Player) : Option Box :=
  if p.attackDir = "right" then some ⟨p.x + p.w, p.y + 4, 20, 10⟩
  else if p.attackDir = "left" then some ⟨p.x - 20, p.y + 4, 20, 10⟩
  else if p.attackDir = "up" then some ⟨p.x + 3, p.y - 20, 8, 20⟩
  else if p.attackDir = "down" then some ⟨p.x + 3, p.y + p.h, 8, 20⟩
  else none

/-- Lines 1152-1181: while the attack window is active, a hit on the ghost
box bumps the repel counter, increments the capped combo, re-arms its
1.2s window, displaces the ghost left by `150 + combo*14 (+40 rainbow)`
and arms `pushedBackUntil` for `750 + combo*30` ms. -/
def hitPhase (nowMs : ℚ) (gBox : Box) (st : GameState) : GameState :=
  if nowMs < st.player.attackUntil then
    match hitBoxFor st.player with
    | none => st
    | some hit =>
      if aabb hit gBox then
        let combo := clamp (st.player.combo + 1) 1 12
        let push := 150 + combo * 14 + (if st.player.rainbow then 40 else 0)
        { st with
          ghostsRepelled := st.ghostsRepelled + 1,
          player := { st.player with combo := combo, comboUntil := nowMs + 1200 },
          ghost := { st.ghost with
            x := st.ghost.x - push,
            pushedBackUntil := nowMs + (750 + combo * 30) } }
      else st
  else st

def ghostBoxOf (g : Ghost) : Box := ⟨g.x, g.y, g.w, g.h⟩

def playerBoxOf (p : Player) : Box := ⟨p.x, p.y, p.w, p.h⟩

/-- Lines 1147-1185: capture the ghost box once, decay the combo, resolve the
attack hit, then run the catch test against the same (pre-knockback)
ghost box. -/
def combatAndCatch (nowMs : ℚ) (st : GameState) : GameState :=
  let gBox := ghostBoxOf st.ghost
  let st := comboDecay nowMs st
  let st := hitPhase nowMs gBox st
  if aabb (playerBoxOf st.player) gBox then
    triggerGameOver "The ghost caught you!" nowMs st
  else st

/-! ## Ghost AI -/

/-- The phase thresholds `PH1 = 18`, `PH2 = 45`, `PH3 = 90`. -/
def phaseOf (tSec : ℚ) : ℕ :=
  if tSec < 18 then 1 else if tSec < 45 then 2 else if tSec < 90 then 3 else 4

/-- `ghostChaseFactor`: ramp from 0.78 at 0s to 1.45 at 90s. -/
def ghostChaseFactor (tSec : ℚ) : ℚ :=
  lerp (78/100) (145/100) (clamp (tSec / 90) 0 1)

/-- The phase step-up factors applied on top of `ghostChaseFactor`. -/
def phaseChaseMult (phase : ℕ) : ℚ :=
  if phase = 1 then 95/100 else if phase = 2 then 102/100
  else if phase = 3 then 108/100 else 114/100

/-- The per-phase lunge trigger probabilities. -/
def lungeChance (phase : ℕ) : ℚ :=
  if phase = 1 then 9/10000 else if phase = 2 then 16/10000
  else if phase = 3 then 26/10000 else 32/10000

/-- The entity part of `updateGhost`: spawn interpolation, random lunges,
the lunge burst / pushed-back / normal-advance movement, the phase-4
blink, and the decorative sinusoidal `y`. -/
def ghostCore (env : Env) (nowMs dt tSec baseScroll speed : ℚ) (g : Ghost) : Ghost :=
  let g := { g with stateTime := g.stateTime + dt }
  let phase := phaseOf tSec
  let g :=
    if g.state = "spawn" then
      let p := clamp ((tSec - g.spawnedAt) / 1) 0 1
      let g := { g with x := lerp (-120) (-30) p }
      if p ≥ 1 then { g with state := "calm", stateTime := 0 } else g
    else
      let g := if g.state ≠ "lunge" ∧ tSec > 10 ∧ env.lungeRoll < lungeChance phase
               then { g with state := "lunge", stateTime := 0 } else g
      if g.state = "lunge" then
        if g.stateTime < 55/100 then
          { g with x := g.x + (speed * (if 3 ≤ phase then 185/100 else 17/10) - baseScroll) * dt
                          + 40 * dt }
        else { g with state := "calm", stateTime := 0 }
      else
        let g := if nowMs < g.pushedBackUntil then
                   { g with x := g.x - (if 4 ≤ phase then 150 else 120) * dt }
                 else
                   { g with x := g.x + (speed - baseScroll) * dt
                                 + (if 3 ≤ phase then 18 else 14) * dt }
        if phase = 4 ∧ env.blinkRoll < 9/10000 ∧ g.x < 30 then { g with x := g.x + 14 }
        else g
  { g with y := 62 + env.sinVal * 4, speed := speed }

/-- `updateGhost(dt, tSec)` of the source: the soft scroll ramp easing
(`baseScroll` eased toward `targetScroll` by `1 - 0.001^dt`), the derived
chase speed, and the ghost state machine. -/
def updateGhost (env : Env) (nowMs dt tSec : ℚ) (st : GameState) : GameState :=
  let targetScroll := 90 + tSec * 2 + st.ghostsRepelled * (8/10)
  let baseScroll := lerp st.baseScroll targetScroll (1 - env.powVal)
  let speed := baseScroll * (ghostChaseFactor tSec * phaseChaseMult (phaseOf tSec))
  { st with ghost := ghostCore env nowMs dt tSec baseScroll speed st.ghost,
            targetScroll := targetScroll, baseScroll := baseScroll }

/-! ## The simulation driver -/

/-- The running tick from physics integration through the attack-direction
latch: integration, collision resolution, the fall-death check, jump and
variable-jump cut, attack latching — the state against which the sword
pickup is then resolved.  (Cosmetic flash/tint countdowns are omitted.) -/
def prePickup (H : ℚ) (inp : Input) (nowMs dt : ℚ) (st : GameState) : GameState :=
  let st := { st with
    player := resolveCollisions st.ground st.platforms st.camX dt
      (physIntegrate inp dt st.player) }
  let st := fallCheck H nowMs st
  let st := { st with player := jumpCutPhase (jumpHeld inp) (jumpResolve st.player) }
  attackDirPhase (inp.pressed.contains "x") nowMs st

/-- The running tick up to (and including) the ghost update: `prePickup`,
then sword pickup, sword expiry and the ghost update. -/
def preCombat (H : ℚ) (env : Env) (inp : Input) (nowMs dt tSec : ℚ)
    (st : GameState) : GameState :=
  updateGhost env nowMs dt tSec (expiryPhase nowMs (pickupPhase nowMs
    (prePickup H inp nowMs dt st)))

/-- The full running tick body (lines 1003-1189): `preCombat`, then combat
resolution and the catch test, then the camera advance. -/
def runBody (H : ℚ) (env : Env) (inp : Input) (nowMs dt tSec : ℚ)
    (st : GameState) : GameState :=
  let st := combatAndCatch nowMs (preCombat H env inp nowMs dt tSec st)
  { st with camX := st.camX + st.baseScroll * dt }

/-- Lines 978-980 of `step`: the world lookahead calls and the sword spawn
timer, which run on every tick before any lifecycle gating. -/
def postGen (W : ℚ) (env : Env) (tSec : ℚ) (st : GameState) : Option GameState :=
  match ensureGroundAhead W st.camX env.groundChoices st.ground with
  | none => none
  | some (_, ground) =>
    match ensurePlatformsAhead W st.camX env.platChoices st.genMode st.genModeLeft
        st.lastPlatY st.platforms with
    | none => none
    | some (gm, gml, lpy, _, plats) =>
      some (maybeSpawnSword W env tSec
        { st with ground := ground, platforms := plats,
                  genMode := gm, genModeLeft := gml, lastPlatY := lpy })

/-- `step(dt)` of the source: world lookahead and sword spawn, the restart
key, the title-screen gate (a start press also launches the ghost spawn
sequence and falls through into the running body), the game-over freeze,
then the running tick body.  `nowMs` is the global `now` of the frame. -/
def step (W H : ℚ) (env : Env) (inp : Input) (nowMs dt : ℚ) (st : GameState) :
    Option GameState :=
  let tSec := (nowMs - st.startedAt) / 1000
  match postGen W env tSec st with
  | none => none
  | some st1 =>
    let st2 := if inp.pressed.contains "r" then restart env nowMs st1 else st1
    if ¬st2.started ∧ ¬st2.gameOver then
      if startPressed inp then
        some (runBody H env inp nowMs dt tSec
          { st2 with
            started := true,
            ghost := { st2.ghost with
              state := "spawn", stateTime := 0, spawnedAt := tSec } })
      else some st2
    else if st2.gameOver then some st2
    else some (runBody H env inp nowMs dt tSec st2)

/-! ## Concrete sample data (for witnesses and counterexamples)

`baseEnv` fixes the oracle: no generator iterations are needed on these
states (their frontiers already satisfy the lookahead invariants), the
lunge/blink rolls fail, `sin` evaluates to `0` and `0.001^dt` to `1`
(so the scroll easing keeps `baseScroll`). -/

def baseEnv : Env :=
  { groundChoices := [], platChoices := [], swordIdx := 0, lungeRoll := 1,
    blinkRoll := 1, sinVal := 0, powVal := 1, styleRoll := 1,
    seedChoices := [], seedModeLeft := 6, seedPlatY := 110 }

def basePlayer : Player :=
  { x := 70, y := 40, w := 12, h := 20, vx := 0, vy := 0, onGround := false,
    hasSword := false, swordUntil := 0, attackUntil := 0, attackDir := "right",
    coyote := 0, jumpBuffer := 0, rainbow := false, power := 1,
    sprinting := false, combo := 0, comboUntil := 0 }

def baseGhost : Ghost :=
  { x := -100, y := 60, w := 48, h := 64, speed := 0, pushedBackUntil := 0,
    state := "calm", stateTime := 0, spawnedAt := 0 }

/-- A running mid-session state: long stable ground, one high platform,
camera at the origin, no pending sword spawn. -/
def baseState : GameState :=
  { player := basePlayer, ghost := baseGhost,
    ground := [⟨-600, groundY, 2600, 40⟩], platforms := [⟨0, 20, 800, 10⟩],
    camX := 0, baseScroll := 0, targetScroll := 90, ghostsRepelled := 0,
    genMode := "easy", genModeLeft := 6, lastPlatY := 110,
    sword := none, nextSwordSpawnAt := 1000000,
    started := true, gameOver := false, gameOverReason := "",
    startedAt := 0, best := 0 }

/-- Airborne with an open coyote window; a buffered press makes a jump fire. -/
def jumpState : GameState := { baseState with player := { basePlayer with coyote := 1 } }

/-- Airborne and ascending at `vy = -380` (scenario B of the spec). -/
def airborneState : GameState :=
  { baseState with player := { basePlayer with vy := -380 } }

/-- An active sword pickup overlapping the runner. -/
def pickupState : GameState := { baseState with sword := some ⟨75, 45, 10, 12, true⟩ }

/-- Ghost box overlapping the runner box after this tick's ghost update. -/
def catchState : GameState :=
  { baseState with
    player := { basePlayer with y := 80 },
    ghost := { baseGhost with x := 60 } }

/-- An active rightward attack window whose hit volume reaches the ghost. -/
def hitState : GameState :=
  { baseState with
    player := { basePlayer with
      y := 80, hasSword := true, swordUntil := 1000000,
      attackUntil := 2000, attackDir := "right" },
    ghost := { baseGhost with x := 85 } }

/-- Combo of 3 with an open combo window, but the sword expiry already past. -/
def comboState : GameState :=
  { baseState with
    player := { basePlayer with
      hasSword := true, swordUntil := 500, combo := 3, comboUntil := 3000 } }

/-- A game-over state whose 20-second sword spawn timer has elapsed. -/
def overState : GameState :=
  { baseState with
    gameOver := true, gameOverReason := "The ghost caught you!",
    nextSwordSpawnAt := 0 }

/-- A game-over state on which no pre-gate phase has anything to do. -/
def frozenState : GameState :=
  { baseState with
    gameOver := true, gameOverReason := "You fell!" }

/-- A running state whose runner is already far below the view: after this
tick's integration and collision pass the runner's `y` exceeds `H + 60`
for the sample height `H = 100`, so the fall check fires. -/
def fallState : GameState :=
  { baseState with
    player := { basePlayer with y := 300 } }

/-! ## Generator lemmas -/

theorem groundLoop_le (b : ℚ) :
    ∀ (cs : List (Bool × ℚ)) (far : ℚ) (segs : List Seg) (far2 : ℚ) (segs2 : List Seg),
    groundLoop b cs far segs = some (far2, segs2) → b ≤ far2 := by
  intro cs
  induction cs with
  | nil =>
    intro far segs far2 segs2 h
    unfold groundLoop at h
    split at h
    · obtain ⟨h1, h2⟩ := by simpa using h
      exact h1 ▸ (by assumption)
    · simp at h
  | cons c rest ih =>
    intro far segs far2 segs2 h
    unfold groundLoop at h
    split at h
    · obtain ⟨h1, h2⟩ := by simpa using h
      exact h1 ▸ (by assumption)
    · split at h
      · exact ih _ _ _ _ h
      · exact ih _ _ _ _ h

theorem groundLoop_noop (b : ℚ) (cs : List (Bool × ℚ)) (far : ℚ) (segs : List Seg)
    (h : b ≤ far) : groundLoop b cs far segs = some (far, segs) := by
  cases cs <;> simp [groundLoop, h]

theorem platLoop_spec (b : ℚ) :
    ∀ (cs : List PlatChoice) (gm : String) (gml : ℤ) (lpy far : ℚ) (segs : List Seg)
      (gm2 : String) (gml2 : ℤ) (lpy2 far2 : ℚ) (segs2 : List Seg),
    platLoop b cs gm gml lpy far segs = some (gm2, gml2, lpy2, far2, segs2) →
    b ≤ far2 ∧ ((far2 = far ∧ segs2 = segs) ∨ ∃ p, p ∈ segs2 ∧ p.x + p.w = far2) := by
  intro cs
  induction cs with
  | nil =>
    intro gm gml lpy far segs gm2 gml2 lpy2 far2 segs2 h
    unfold platLoop at h
    split at h
    · obtain ⟨-, -, -, h4, h5⟩ := by simpa using h
      exact ⟨h4 ▸ (by assumption), Or.inl ⟨h4.symm, h5.symm⟩⟩
    · simp at h
  | cons c rest ih =>
    intro gm gml lpy far segs gm2 gml2 lpy2 far2 segs2 h
    unfold platLoop at h
    split at h
    · obtain ⟨-, -, -, h4, h5⟩ := by simpa using h
      exact ⟨h4 ▸ (by assumption), Or.inl ⟨h4.symm, h5.symm⟩⟩
    · obtain ⟨h1, h2⟩ := ih _ _ _ _ _ _ _ _ _ _ h
      refine ⟨h1, Or.inr ?_⟩
      rcases h2 with ⟨hf, hs⟩ | ⟨p, hp, he⟩
      · refine ⟨_, hs ▸ List.mem_append_right _ (List.mem_singleton_self _), ?_⟩
        simpa using hf.symm
      · exact ⟨p, hp, he⟩

theorem platLoop_noop (b : ℚ) (cs : List PlatChoice) (gm : String) (gml : ℤ)
    (lpy far : ℚ) (segs : List Seg) (h : b ≤ far) :
    platLoop b cs gm gml lpy far segs = some (gm, gml, lpy, far, segs) := by
  cases cs <;> simp [platLoop, h]

theorem le_foldlMax (b : ℚ) :
    ∀ (l : List Seg) (init : ℚ), b ≤ l.foldl (fun a s => max a (s.x + s.w)) init →
    b ≤ init ∨ ∃ s, s ∈ l ∧ b ≤ s.x + s.w := by
  intro l
  induction l with
  | nil => exact fun init h => Or.inl h
  | cons s t ih =>
    intro init h
    rcases ih _ h with h' | ⟨u, hu, hb⟩
    · rcases le_max_iff.mp h' with h1 | h2
      · exact Or.inl h1
      · exact Or.inr ⟨s, List.mem_cons_self _ _, h2⟩
    · exact Or.inr ⟨u, List.mem_cons_of_mem _ hu, hb⟩

/-- C1 (amended): after a returning call of the lookahead functions, the
*generation cursor* of the ground generator (its internal `far`) and the
platform frontier both reach `camera + viewWidth + margin`; for platforms
the rightmost live `x + w` itself meets the bound, and a call made while
the frontier-edge invariant already holds inserts no new segment of either
category.  (For ground, the rightmost live `x + w` itself may stop short
of the bound when the loop's final draws are gaps — see the
counterexample.) -/
theorem c1_lookahead_frontier :
    (∀ (W camX : ℚ) (cs : List (Bool × ℚ)) (gs : List Seg) (far : ℚ) (gs' : List Seg),
      ensureGroundAhead W camX cs gs = some (far, gs') →
        camX + W + 600 ≤ far ∧
        (camX + W + 600 ≤ farInit (camX - 500) gs →
          far = farInit (camX - 500) gs ∧ gs'.Sublist gs)) ∧
    (∀ (W camX : ℚ) (cs : List PlatChoice) (gm : String) (gml : ℤ) (lpy : ℚ)
       (ps : List Seg) (gm2 : String) (gml2 : ℤ) (lpy2 far2 : ℚ) (ps' : List Seg),
      0 ≤ W → 0 < camX + W + 420 →
      ensurePlatformsAhead W camX cs gm gml lpy ps = some (gm2, gml2, lpy2, far2, ps') →
        camX + W + 420 ≤ far2 ∧
        hasEdgeBeyond (camX + W + 420) ps' = true ∧
        (camX + W + 420 ≤ platFarInit ps → ps'.Sublist ps)) := by
  constructor
  · intro W camX cs gs far gs' h
    unfold ensureGroundAhead at h
    constructor
    · rcases hl : groundLoop (camX + W + 600) cs (farInit (camX - 500) gs) gs with _ | ⟨f, s⟩
      · rw [hl] at h; simp at h
      · rw [hl] at h
        obtain ⟨h1, -⟩ := by simpa using h
        exact h1 ▸ groundLoop_le _ _ _ _ _ _ hl
    · intro hinv
      rw [groundLoop_noop _ _ _ _ hinv] at h
      obtain ⟨h1, h2⟩ := by simpa using h
      exact ⟨h1.symm, h2 ▸ List.filter_sublist _⟩
  · intro W camX cs gm gml lpy ps gm2 gml2 lpy2 far2 ps' hW hpos h
    unfold ensurePlatformsAhead at h
    rcases hl : platLoop (camX + W + 420) cs gm gml lpy (platFarInit ps) ps with _ | ⟨a, b, c, f, s⟩
    · rw [hl] at h; simp at h
    · rw [hl] at h
      obtain ⟨-, -, -, h4, h5⟩ := by simpa using h
      obtain ⟨hle, hcase⟩ := platLoop_spec _ _ _ _ _ _ _ _ _ _ _ _ hl
      have hfar : camX + W + 420 ≤ far2 := h4 ▸ hle
      have hedge : ∃ p, p ∈ s ∧ camX + W + 420 ≤ p.x + p.w := by
        rcases hcase with ⟨hf, hs⟩ | ⟨p, hp, he⟩
        · rcases le_foldlMax _ _ _ (hf ▸ hle) with h0 | ⟨u, hu, hb⟩
          · exact absurd h0 (by linarith)
          · exact ⟨u, hs ▸ hu, hb⟩
        · exact ⟨p, hp, he ▸ hle⟩
      refine ⟨hfar, ?_, ?_⟩
      · obtain ⟨p, hp, hb⟩ := hedge
        have hkeep : (fun q : Seg => !decide (q.x + q.w < camX - 600)) p = true := by
          simp only [Bool.not_eq_true', decide_eq_false_iff_not, not_lt]
          linarith
        refine h5 ▸ ?_
        simp only [hasEdgeBeyond, List.any_eq_true]
        exact ⟨p, List.mem_filter.mpr ⟨hp, hkeep⟩, by simpa using hb⟩
      · intro hinv
        rw [platLoop_noop _ _ _ _ _ _ _ hinv] at hl
        obtain ⟨-, -, -, -, h5'⟩ := by simpa using hl
        exact h5 ▸ h5' ▸ List.filter_sublist _

/-- C1 counterexample: with camera `0` and view width `100` (bound
`0 + 100 + 600 = 700`) and four consecutive gap draws of width `150`, the
ground call returns — its cursor reaches `700` — while the rightmost live
ground edge is still `0 + 100 = 100 < 700`: the claimed frontier-edge
invariant fails for the ground category. -/
theorem c1_ground_frontier_counterexample :
    ensureGroundAhead 100 0 [(true, 150), (true, 150), (true, 150), (true, 150)]
        [⟨0, groundY, 100, 40⟩] =
      some (700, [⟨0, groundY, 100, 40⟩]) ∧
    hasEdgeBeyond (0 + 100 + 600) [(⟨0, groundY, 100, 40⟩ : Seg)] = false := by
  constructor <;> norm_num [ensureGroundAhead, groundLoop, farInit, groundY, hasEdgeBeyond]

/-- Witness for `c1_lookahead_frontier` at concrete calls whose invariants
already hold. -/
theorem c1_lookahead_frontier_witness :
    (ensureGroundAhead 100 0 [] [⟨0, groundY, 2600, 40⟩] =
      some (2600, [⟨0, groundY, 2600, 40⟩])) ∧
    ((0 : ℚ) + 100 + 600 ≤ 2600 ∧ [(⟨0, groundY, 2600, 40⟩ : Seg)].Sublist [⟨0, groundY, 2600, 40⟩]) ∧
    (ensurePlatformsAhead 100 0 [] "easy" 6 110 [⟨0, 100, 800, 10⟩] =
      some ("easy", 6, 110, 800, [⟨0, 100, 800, 10⟩])) ∧
    ((0 : ℚ) + 100 + 420 ≤ 800 ∧
      hasEdgeBeyond (0 + 100 + 420) [(⟨0, 100, 800, 10⟩ : Seg)] = true ∧
      [(⟨0, 100, 800, 10⟩ : Seg)].Sublist [⟨0, 100, 800, 10⟩]) := by
  have hg : ensureGroundAhead 100 0 [] [⟨0, groundY, 2600, 40⟩] =
      some (2600, [⟨0, groundY, 2600, 40⟩]) := by
    norm_num [ensureGroundAhead, groundLoop, farInit, groundY]
  have hp : ensurePlatformsAhead 100 0 [] "easy" 6 110 [⟨0, 100, 800, 10⟩] =
      some ("easy", 6, 110, 800, [⟨0, 100, 800, 10⟩]) := by
    norm_num [ensurePlatformsAhead, platLoop, platFarInit]
  refine ⟨hg, ⟨(c1_lookahead_frontier.1 _ _ _ _ _ _ hg).1,
    ((c1_lookahead_frontier.1 _ _ _ _ _ _ hg).2 (by norm_num [farInit, groundY])).2⟩, hp, ?_⟩
  obtain ⟨h1, h2, h3⟩ :=
    c1_lookahead_frontier.2 100 0 [] "easy" 6 110 [⟨0, 100, 800, 10⟩] _ _ _ _ _
      (by norm_num) (by norm_num) hp
  exact ⟨h1, h2, h3 (by norm_num [platFarInit])⟩

/-! ## Frame lemmas: which state each phase leaves untouched -/

theorem physIntegrate_frame (inp : Input) (dt : ℚ) (p : Player) :
    (physIntegrate inp dt p).onGround = p.onGround ∧
    (physIntegrate inp dt p).hasSword = p.hasSword ∧
    (physIntegrate inp dt p).swordUntil = p.swordUntil ∧
    (physIntegrate inp dt p).attackUntil = p.attackUntil ∧
    (physIntegrate inp dt p).attackDir = p.attackDir ∧
    (physIntegrate inp dt p).rainbow = p.rainbow ∧
    (physIntegrate inp dt p).power = p.power ∧
    (physIntegrate inp dt p).combo = p.combo ∧
    (physIntegrate inp dt p).comboUntil = p.comboUntil ∧
    (physIntegrate inp dt p).w = p.w ∧ (physIntegrate inp dt p).h = p.h := by
  exact ⟨rfl, rfl, rfl, rfl, rfl, rfl, rfl, rfl, rfl, rfl, rfl⟩

theorem resolveCollisions_frame (g q : List Seg) (camX dt : ℚ) (p : Player) :
    (resolveCollisions g q camX dt p).x = p.x ∧
    (resolveCollisions g q camX dt p).vx = p.vx ∧
    (resolveCollisions g q camX dt p).jumpBuffer = p.jumpBuffer ∧
    (resolveCollisions g q camX dt p).hasSword = p.hasSword ∧
    (resolveCollisions g q camX dt p).swordUntil = p.swordUntil ∧
    (resolveCollisions g q camX dt p).attackUntil = p.attackUntil ∧
    (resolveCollisions g q camX dt p).attackDir = p.attackDir ∧
    (resolveCollisions g q camX dt p).rainbow = p.rainbow ∧
    (resolveCollisions g q camX dt p).power = p.power ∧
    (resolveCollisions g q camX dt p).combo = p.combo ∧
    (resolveCollisions g q camX dt p).comboUntil = p.comboUntil ∧
    (resolveCollisions g q camX dt p).w = p.w ∧
    (resolveCollisions g q camX dt p).h = p.h ∧
    (resolveCollisions g q camX dt p).sprinting = p.sprinting := by
  unfold resolveCollisions
  dsimp only
  repeat' apply And.intro
  all_goals ((repeat' split) <;> rfl)

theorem jumpResolve_frame (p : Player) :
    (jumpResolve p).x = p.x ∧ (jumpResolve p).y = p.y ∧
    (jumpResolve p).vx = p.vx ∧
    (jumpResolve p).hasSword = p.hasSword ∧
    (jumpResolve p).swordUntil = p.swordUntil ∧
    (jumpResolve p).attackUntil = p.attackUntil ∧
    (jumpResolve p).attackDir = p.attackDir ∧
    (jumpResolve p).rainbow = p.rainbow ∧
    (jumpResolve p).power = p.power ∧
    (jumpResolve p).combo = p.combo ∧
    (jumpResolve p).comboUntil = p.comboUntil ∧
    (jumpResolve p).w = p.w ∧ (jumpResolve p).h = p.h := by
  unfold jumpResolve
  split <;> simp

theorem jumpCutPhase_frame (held : Bool) (p : Player) :
    (jumpCutPhase held p).x = p.x ∧ (jumpCutPhase held p).y = p.y ∧
    (jumpCutPhase held p).vx = p.vx ∧
    (jumpCutPhase held p).coyote = p.coyote ∧
    (jumpCutPhase held p).jumpBuffer = p.jumpBuffer ∧
    (jumpCutPhase held p).hasSword = p.hasSword ∧
    (jumpCutPhase held p).swordUntil = p.swordUntil ∧
    (jumpCutPhase held p).attackUntil = p.attackUntil ∧
    (jumpCutPhase held p).attackDir = p.attackDir ∧
    (jumpCutPhase held p).rainbow = p.rainbow ∧
    (jumpCutPhase held p).power = p.power ∧
    (jumpCutPhase held p).combo = p.combo ∧
    (jumpCutPhase held p).comboUntil = p.comboUntil ∧
    (jumpCutPhase held p).w = p.w ∧ (jumpCutPhase held p).h = p.h := by
  unfold jumpCutPhase
  split <;> simp

theorem triggerGameOver_frame (r : String) (n : ℚ) (st : GameState) :
    (triggerGameOver r n st).player = st.player ∧
    (triggerGameOver r n st).ghost = st.ghost ∧
    (triggerGameOver r n st).sword = st.sword ∧
    (triggerGameOver r n st).camX = st.camX ∧
    (triggerGameOver r n st).baseScroll = st.baseScroll ∧
    (triggerGameOver r n st).started = st.started ∧
    (triggerGameOver r n st).startedAt = st.startedAt ∧
    (triggerGameOver r n st).ghostsRepelled = st.ghostsRepelled ∧
    (triggerGameOver r n st).ground = st.ground ∧
    (triggerGameOver r n st).platforms = st.platforms ∧
    (triggerGameOver r n st).nextSwordSpawnAt = st.nextSwordSpawnAt := by
  unfold triggerGameOver
  split <;> simp

theorem triggerGameOver_over (r : String) (n : ℚ) (st : GameState) :
    (triggerGameOver r n st).gameOver = true := by
  unfold triggerGameOver
  split
  · assumption
  · rfl

theorem fallCheck_frame (H n : ℚ) (st : GameState) :
    (fallCheck H n st).player = st.player ∧
    (fallCheck H n st).ghost = st.ghost ∧
    (fallCheck H n st).sword = st.sword ∧
    (fallCheck H n st).camX = st.camX ∧
    (fallCheck H n st).baseScroll = st.baseScroll ∧
    (fallCheck H n st).ground = st.ground ∧
    (fallCheck H n st).platforms = st.platforms ∧
    (fallCheck H n st).started = st.started ∧
    (fallCheck H n st).startedAt = st.startedAt := by
  unfold fallCheck
  split
  · exact ⟨(triggerGameOver_frame _ _ _).1, (triggerGameOver_frame _ _ _).2.1,
      (triggerGameOver_frame _ _ _).2.2.1, (triggerGameOver_frame _ _ _).2.2.2.1,
      (triggerGameOver_frame _ _ _).2.2.2.2.1, (triggerGameOver_frame _ _ _).2.2.2.2.2.2.2.2.1,
      (triggerGameOver_frame _ _ _).2.2.2.2.2.2.2.2.2.1,
      (triggerGameOver_frame _ _ _).2.2.2.2.2.1, (triggerGameOver_frame _ _ _).2.2.2.2.2.2.1⟩
  · exact ⟨rfl, rfl, rfl, rfl, rfl, rfl, rfl, rfl, rfl⟩

theorem attackDirPhase_frame (a : Bool) (n : ℚ) (st : GameState) :
    (attackDirPhase a n st).ghost = st.ghost ∧
    (attackDirPhase a n st).sword = st.sword ∧
    (attackDirPhase a n st).camX = st.camX ∧
    (attackDirPhase a n st).baseScroll = st.baseScroll ∧
    (attackDirPhase a n st).started = st.started ∧
    (attackDirPhase a n st).gameOver = st.gameOver ∧
    (attackDirPhase a n st).gameOverReason = st.gameOverReason ∧
    (attackDirPhase a n st).best = st.best ∧
    (attackDirPhase a n st).startedAt = st.startedAt ∧
    (attackDirPhase a n st).ghostsRepelled = st.ghostsRepelled ∧
    (attackDirPhase a n st).player.x = st.player.x ∧
    (attackDirPhase a n st).player.y = st.player.y ∧
    (attackDirPhase a n st).player.vx = st.player.vx ∧
    (attackDirPhase a n st).player.vy = st.player.vy ∧
    (attackDirPhase a n st).player.coyote = st.player.coyote ∧
    (attackDirPhase a n st).player.jumpBuffer = st.player.jumpBuffer ∧
    (attackDirPhase a n st).player.combo = st.player.combo ∧
    (attackDirPhase a n st).player.comboUntil = st.player.comboUntil ∧
    (attackDirPhase a n st).player.hasSword = st.player.hasSword ∧
    (attackDirPhase a n st).player.swordUntil = st.player.swordUntil ∧
    (attackDirPhase a n st).player.rainbow = st.player.rainbow ∧
    (attackDirPhase a n st).player.power = st.player.power ∧
    (attackDirPhase a n st).player.w = st.player.w ∧
    (attackDirPhase a n st).player.h = st.player.h := by
  unfold attackDirPhase
  split <;> simp

theorem pickupPhase_frame (n : ℚ) (st : GameState) :
    (pickupPhase n st).ghost = st.ghost ∧
    (pickupPhase n st).camX = st.camX ∧
    (pickupPhase n st).baseScroll = st.baseScroll ∧
    (pickupPhase n st).started = st.started ∧
    (pickupPhase n st).gameOver = st.gameOver ∧
    (pickupPhase n st).gameOverReason = st.gameOverReason ∧
    (pickupPhase n st).best = st.best ∧
    (pickupPhase n st).startedAt = st.startedAt ∧
    (pickupPhase n st).ghostsRepelled = st.ghostsRepelled ∧
    (pickupPhase n st).player.x = st.player.x ∧
    (pickupPhase n st).player.y = st.player.y ∧
    (pickupPhase n st).player.vx = st.player.vx ∧
    (pickupPhase n st).player.vy = st.player.vy ∧
    (pickupPhase n st).player.coyote = st.player.coyote ∧
    (pickupPhase n st).player.jumpBuffer = st.player.jumpBuffer ∧
    (pickupPhase n st).player.attackUntil = st.player.attackUntil ∧
    (pickupPhase n st).player.attackDir = st.player.attackDir ∧
    (pickupPhase n st).player.rainbow = st.player.rainbow ∧
    (pickupPhase n st).player.power = st.player.power ∧
    (pickupPhase n st).player.w = st.player.w ∧
    (pickupPhase n st).player.h = st.player.h := by
  unfold pickupPhase
  repeat' apply And.intro
  all_goals ((repeat' split) <;> rfl)

theorem expiryPhase_frame (n : ℚ) (st : GameState) :
    (expiryPhase n st).ghost = st.ghost ∧
    (expiryPhase n st).sword = st.sword ∧
    (expiryPhase n st).camX = st.camX ∧
    (expiryPhase n st).baseScroll = st.baseScroll ∧
    (expiryPhase n st).started = st.started ∧
    (expiryPhase n st).gameOver = st.gameOver ∧
    (expiryPhase n st).gameOverReason = st.gameOverReason ∧
    (expiryPhase n st).best = st.best ∧
    (expiryPhase n st).startedAt = st.startedAt ∧
    (expiryPhase n st).ghostsRepelled = st.ghostsRepelled ∧
    (expiryPhase n st).player.x = st.player.x ∧
    (expiryPhase n st).player.y = st.player.y ∧
    (expiryPhase n st).player.vx = st.player.vx ∧
    (expiryPhase n st).player.vy = st.player.vy ∧
    (expiryPhase n st).player.coyote = st.player.coyote ∧
    (expiryPhase n st).player.jumpBuffer = st.player.jumpBuffer ∧
    (expiryPhase n st).player.swordUntil = st.player.swordUntil ∧
    (expiryPhase n st).player.attackDir = st.player.attackDir ∧
    (expiryPhase n st).player.rainbow = st.player.rainbow ∧
    (expiryPhase n st).player.power = st.player.power ∧
    (expiryPhase n st).player.w = st.player.w ∧
    (expiryPhase n st).player.h = st.player.h := by
  unfold expiryPhase
  split <;> simp

theorem updateGhost_frame (env : Env) (n dt t : ℚ) (st : GameState) :
    (updateGhost env n dt t st).player = st.player ∧
    (updateGhost env n dt t st).sword = st.sword ∧
    (updateGhost env n dt t st).camX = st.camX ∧
    (updateGhost env n dt t st).ground = st.ground ∧
    (updateGhost env n dt t st).platforms = st.platforms ∧
    (updateGhost env n dt t st).started = st.started ∧
    (updateGhost env n dt t st).gameOver = st.gameOver ∧
    (updateGhost env n dt t st).gameOverReason = st.gameOverReason ∧
    (updateGhost env n dt t st).best = st.best ∧
    (updateGhost env n dt t st).startedAt = st.startedAt ∧
    (updateGhost env n dt t st).ghostsRepelled = st.ghostsRepelled ∧
    (updateGhost env n dt t st).nextSwordSpawnAt = st.nextSwordSpawnAt := by
  exact ⟨rfl, rfl, rfl, rfl, rfl, rfl, rfl, rfl, rfl, rfl, rfl, rfl⟩

theorem comboDecay_eq (n : ℚ) (st : GameState) :
    comboDecay n st = { st with player := { st.player with
      combo := if 0 < st.player.combo ∧ st.player.comboUntil < n then 0
               else st.player.combo } } := by
  unfold comboDecay
  split <;> rfl

theorem hitPhase_frame (n : ℚ) (b : Box) (st : GameState) :
    (hitPhase n b st).sword = st.sword ∧
    (hitPhase n b st).camX = st.camX ∧
    (hitPhase n b st).baseScroll = st.baseScroll ∧
    (hitPhase n b st).started = st.started ∧
    (hitPhase n b st).gameOver = st.gameOver ∧
    (hitPhase n b st).gameOverReason = st.gameOverReason ∧
    (hitPhase n b st).best = st.best ∧
    (hitPhase n b st).startedAt = st.startedAt ∧
    (hitPhase n b st).player.x = st.player.x ∧
    (hitPhase n b st).player.y = st.player.y ∧
    (hitPhase n b st).player.vx = st.player.vx ∧
    (hitPhase n b st).player.vy = st.player.vy ∧
    (hitPhase n b st).player.coyote = st.player.coyote ∧
    (hitPhase n b st).player.jumpBuffer = st.player.jumpBuffer ∧
    (hitPhase n b st).player.hasSword = st.player.hasSword ∧
    (hitPhase n b st).player.swordUntil = st.player.swordUntil ∧
    (hitPhase n b st).player.attackUntil = st.player.attackUntil ∧
    (hitPhase n b st).player.attackDir = st.player.attackDir ∧
    (hitPhase n b st).player.rainbow = st.player.rainbow ∧
    (hitPhase n b st).player.power = st.player.power ∧
    (hitPhase n b st).player.w = st.player.w ∧
    (hitPhase n b st).player.h = st.player.h := by
  unfold hitPhase
  repeat' apply And.intro
  all_goals ((repeat' split) <;> rfl)

theorem maybeSpawnSword_frame (W : ℚ) (env : Env) (t : ℚ) (st : GameState) :
    (maybeSpawnSword W env t st).player = st.player ∧
    (maybeSpawnSword W env t st).ghost = st.ghost ∧
    (maybeSpawnSword W env t st).camX = st.camX ∧
    (maybeSpawnSword W env t st).baseScroll = st.baseScroll ∧
    (maybeSpawnSword W env t st).started = st.started ∧
    (maybeSpawnSword W env t st).gameOver = st.gameOver ∧
    (maybeSpawnSword W env t st).gameOverReason = st.gameOverReason ∧
    (maybeSpawnSword W env t st).best = st.best ∧
    (maybeSpawnSword W env t st).startedAt = st.startedAt ∧
    (maybeSpawnSword W env t st).ghostsRepelled = st.ghostsRepelled ∧
    (maybeSpawnSword W env t st).ground = st.ground ∧
    (maybeSpawnSword W env t st).platforms = st.platforms := by
  unfold maybeSpawnSword
  dsimp only
  repeat' apply And.intro
  all_goals ((repeat' split) <;> rfl)

theorem postGen_frame (W : ℚ) (env : Env) (t : ℚ) (st st1 : GameState)
    (h : postGen W env t st = some st1) :
    st1.player = st.player ∧ st1.ghost = st.ghost ∧ st1.camX = st.camX ∧
    st1.baseScroll = st.baseScroll ∧ st1.started = st.started ∧
    st1.gameOver = st.gameOver ∧ st1.gameOverReason = st.gameOverReason ∧
    st1.best = st.best ∧ st1.startedAt = st.startedAt ∧
    st1.ghostsRepelled = st.ghostsRepelled := by
  unfold postGen at h
  rcases h1 : ensureGroundAhead W st.camX env.groundChoices st.ground with _ | ⟨f, gr⟩ <;>
    rw [h1] at h
  · simp at h
  · rcases h2 : ensurePlatformsAhead W st.camX env.platChoices st.genMode st.genModeLeft
        st.lastPlatY st.platforms with _ | ⟨gm, gml, lpy, f2, pl⟩ <;> rw [h2] at h
    · simp at h
    · obtain rfl : maybeSpawnSword W env t
          { st with ground := gr, platforms := pl, genMode := gm,
                    genModeLeft := gml, lastPlatY := lpy } = st1 := by simpa using h
      obtain ⟨m1, m2, m3, m4, m5, m6, m7, m8, m9, m10, -⟩ := maybeSpawnSword_frame W env t
        { st with ground := gr, platforms := pl, genMode := gm,
                  genModeLeft := gml, lastPlatY := lpy }
      exact ⟨m1, m2, m3, m4, m5, m6, m7, m8, m9, m10⟩

/-! ## Single-field frame simp lemmas -/

@[simp] theorem physIntegrate_onGround (inp : Input) (dt : ℚ) (p : Player) :
    (physIntegrate inp dt p).onGround = p.onGround := by
  rfl

@[simp] theorem physIntegrate_hasSword (inp : Input) (dt : ℚ) (p : Player) :
    (physIntegrate inp dt p).hasSword = p.hasSword := by
  rfl

@[simp] theorem physIntegrate_swordUntil (inp : Input) (dt : ℚ) (p : Player) :
    (physIntegrate inp dt p).swordUntil = p.swordUntil := by
  rfl

@[simp] theorem physIntegrate_attackUntil (inp : Input) (dt : ℚ) (p : Player) :
    (physIntegrate inp dt p).attackUntil = p.attackUntil := by
  rfl

@[simp] theorem physIntegrate_attackDir (inp : Input) (dt : ℚ) (p : Player) :
    (physIntegrate inp dt p).attackDir = p.attackDir := by
  rfl

@[simp] theorem physIntegrate_rainbow (inp : Input) (dt : ℚ) (p : Player) :
    (physIntegrate inp dt p).rainbow = p.rainbow := by
  rfl

@[simp] theorem physIntegrate_power (inp : Input) (dt : ℚ) (p : Player) :
    (physIntegrate inp dt p).power = p.power := by
  rfl

@[simp] theorem physIntegrate_combo (inp : Input) (dt : ℚ) (p : Player) :
    (physIntegrate inp dt p).combo = p.combo := by
  rfl

@[simp] theorem physIntegrate_comboUntil (inp : Input) (dt : ℚ) (p : Player) :
    (physIntegrate inp dt p).comboUntil = p.comboUntil := by
  rfl

@[simp] theorem physIntegrate_w (inp : Input) (dt : ℚ) (p : Player) :
    (physIntegrate inp dt p).w = p.w := by
  rfl

@[simp] theorem physIntegrate_h (inp : Input) (dt : ℚ) (p : Player) :
    (physIntegrate inp dt p).h = p.h := by
  rfl

@[simp] theorem resolveCollisions_x (g q : List Seg) (camX dt : ℚ) (p : Player) :
    (resolveCollisions g q camX dt p).x = p.x := by
  unfold resolveCollisions
  try dsimp only
  (repeat' split) <;> rfl

@[simp] theorem resolveCollisions_vx (g q : List Seg) (camX dt : ℚ) (p : Player) :
    (resolveCollisions g q camX dt p).vx = p.vx := by
  unfold resolveCollisions
  try dsimp only
  (repeat' split) <;> rfl

@[simp] theorem resolveCollisions_jumpBuffer (g q : List Seg) (camX dt : ℚ) (p : Player) :
    (resolveCollisions g q camX dt p).jumpBuffer = p.jumpBuffer := by
  unfold resolveCollisions
  try dsimp only
  (repeat' split) <;> rfl

@[simp] theorem resolveCollisions_hasSword (g q : List Seg) (camX dt : ℚ) (p : Player) :
    (resolveCollisions g q camX dt p).hasSword = p.hasSword := by
  unfold resolveCollisions
  try dsimp only
  (repeat' split) <;> rfl

@[simp] theorem resolveCollisions_swordUntil (g q : List Seg) (camX dt : ℚ) (p : Player) :
    (resolveCollisions g q camX dt p).swordUntil = p.swordUntil := by
  unfold resolveCollisions
  try dsimp only
  (repeat' split) <;> rfl

@[simp] theorem resolveCollisions_attackUntil (g q : List Seg) (camX dt : ℚ) (p : Player) :
    (resolveCollisions g q camX dt p).attackUntil = p.attackUntil := by
  unfold resolveCollisions
  try dsimp only
  (repeat' split) <;> rfl

@[simp] theorem resolveCollisions_attackDir (g q : List Seg) (camX dt : ℚ) (p : Player) :
    (resolveCollisions g q camX dt p).attackDir = p.attackDir := by
  unfold resolveCollisions
  try dsimp only
  (repeat' split) <;> rfl

@[simp] theorem resolveCollisions_rainbow (g q : List Seg) (camX dt : ℚ) (p : Player) :
    (resolveCollisions g q camX dt p).rainbow = p.rainbow := by
  unfold resolveCollisions
  try dsimp only
  (repeat' split) <;> rfl

@[simp] theorem resolveCollisions_power (g q : List Seg) (camX dt : ℚ) (p : Player) :
    (resolveCollisions g q camX dt p).power = p.power := by
  unfold resolveCollisions
  try dsimp only
  (repeat' split) <;> rfl

@[simp] theorem resolveCollisions_combo (g q : List Seg) (camX dt : ℚ) (p : Player) :
    (resolveCollisions g q camX dt p).combo = p.combo := by
  unfold resolveCollisions
  try dsimp only
  (repeat' split) <;> rfl

@[simp] theorem resolveCollisions_comboUntil (g q : List Seg) (camX dt : ℚ) (p : Player) :
    (resolveCollisions g q camX dt p).comboUntil = p.comboUntil := by
  unfold resolveCollisions
  try dsimp only
  (repeat' split) <;> rfl

@[simp] theorem resolveCollisions_w (g q : List Seg) (camX dt : ℚ) (p : Player) :
    (resolveCollisions g q camX dt p).w = p.w := by
  unfold resolveCollisions
  try dsimp only
  (repeat' split) <;> rfl

@[simp] theorem resolveCollisions_h (g q : List Seg) (camX dt : ℚ) (p : Player) :
    (resolveCollisions g q camX dt p).h = p.h := by
  unfold resolveCollisions
  try dsimp only
  (repeat' split) <;> rfl

@[simp] theorem resolveCollisions_sprinting (g q : List Seg) (camX dt : ℚ) (p : Player) :
    (resolveCollisions g q camX dt p).sprinting = p.sprinting := by
  unfold resolveCollisions
  try dsimp only
  (repeat' split) <;> rfl

@[simp] theorem jumpResolve_x (p : Player) :
    (jumpResolve p).x = p.x := by
  unfold jumpResolve
  try dsimp only
  (repeat' split) <;> rfl

@[simp] theorem jumpResolve_y (p : Player) :
    (jumpResolve p).y = p.y := by
  unfold jumpResolve
  try dsimp only
  (repeat' split) <;> rfl

@[simp] theorem jumpResolve_vx (p : Player) :
    (jumpResolve p).vx = p.vx := by
  unfold jumpResolve
  try dsimp only
  (repeat' split) <;> rfl

@[simp] theorem jumpResolve_hasSword (p : Player) :
    (jumpResolve p).hasSword = p.hasSword := by
  unfold jumpResolve
  try dsimp only
  (repeat' split) <;> rfl

@[simp] theorem jumpResolve_swordUntil (p : Player) :
    (jumpResolve p).swordUntil = p.swordUntil := by
  unfold jumpResolve
  try dsimp only
  (repeat' split) <;> rfl

@[simp] theorem jumpResolve_attackUntil (p : Player) :
    (jumpResolve p).attackUntil = p.attackUntil := by
  unfold jumpResolve
  try dsimp only
  (repeat' split) <;> rfl

@[simp] theorem jumpResolve_attackDir (p : Player) :
    (jumpResolve p).attackDir = p.attackDir := by
  unfold jumpResolve
  try dsimp only
  (repeat' split) <;> rfl

@[simp] theorem jumpResolve_rainbow (p : Player) :
    (jumpResolve p).rainbow = p.rainbow := by
  unfold jumpResolve
  try dsimp only
  (repeat' split) <;> rfl

@[simp] theorem jumpResolve_power (p : Player) :
    (jumpResolve p).power = p.power := by
  unfold jumpResolve
  try dsimp only
  (repeat' split) <;> rfl

@[simp] theorem jumpResolve_combo (p : Player) :
    (jumpResolve p).combo = p.combo := by
  unfold jumpResolve
  try dsimp only
  (repeat' split) <;> rfl

@[simp] theorem jumpResolve_comboUntil (p : Player) :
    (jumpResolve p).comboUntil = p.comboUntil := by
  unfold jumpResolve
  try dsimp only
  (repeat' split) <;> rfl

@[simp] theorem jumpResolve_w (p : Player) :
    (jumpResolve p).w = p.w := by
  unfold jumpResolve
  try dsimp only
  (repeat' split) <;> rfl

@[simp] theorem jumpResolve_h (p : Player) :
    (jumpResolve p).h = p.h := by
  unfold jumpResolve
  try dsimp only
  (repeat' split) <;> rfl

@[simp] theorem jumpCutPhase_x (held : Bool) (p : Player) :
    (jumpCutPhase held p).x = p.x := by
  unfold jumpCutPhase
  try dsimp only
  (repeat' split) <;> rfl

@[simp] theorem jumpCutPhase_y (held : Bool) (p : Player) :
    (jumpCutPhase held p).y = p.y := by
  unfold jumpCutPhase
  try dsimp only
  (repeat' split) <;> rfl

@[simp] theorem jumpCutPhase_vx (held : Bool) (p : Player) :
    (jumpCutPhase held p).vx = p.vx := by
  unfold jumpCutPhase
  try dsimp only
  (repeat' split) <;> rfl

@[simp] theorem jumpCutPhase_coyote (held : Bool) (p : Player) :
    (jumpCutPhase held p).coyote = p.coyote := by
  unfold jumpCutPhase
  try dsimp only
  (repeat' split) <;> rfl

@[simp] theorem jumpCutPhase_jumpBuffer (held : Bool) (p : Player) :
    (jumpCutPhase held p).jumpBuffer = p.jumpBuffer := by
  unfold jumpCutPhase
  try dsimp only
  (repeat' split) <;> rfl

@[simp] theorem jumpCutPhase_hasSword (held : Bool) (p : Player) :
    (jumpCutPhase held p).hasSword = p.hasSword := by
  unfold jumpCutPhase
  try dsimp only
  (repeat' split) <;> rfl

@[simp] theorem jumpCutPhase_swordUntil (held : Bool) (p : Player) :
    (jumpCutPhase held p).swordUntil = p.swordUntil := by
  unfold jumpCutPhase
  try dsimp only
  (repeat' split) <;> rfl

@[simp] theorem jumpCutPhase_attackUntil (held : Bool) (p : Player) :
    (jumpCutPhase held p).attackUntil = p.attackUntil := by
  unfold jumpCutPhase
  try dsimp only
  (repeat' split) <;> rfl

@[simp] theorem jumpCutPhase_attackDir (held : Bool) (p : Player) :
    (jumpCutPhase held p).attackDir = p.attackDir := by
  unfold jumpCutPhase
  try dsimp only
  (repeat' split) <;> rfl

@[simp] theorem jumpCutPhase_rainbow (held : Bool) (p : Player) :
    (jumpCutPhase held p).rainbow = p.rainbow := by
  unfold jumpCutPhase
  try dsimp only
  (repeat' split) <;> rfl

@[simp] theorem jumpCutPhase_power (held : Bool) (p : Player) :
    (jumpCutPhase held p).power = p.power := by
  unfold jumpCutPhase
  try dsimp only
  (repeat' split) <;> rfl

@[simp] theorem jumpCutPhase_combo (held : Bool) (p : Player) :
    (jumpCutPhase held p).combo = p.combo := by
  unfold jumpCutPhase
  try dsimp only
  (repeat' split) <;> rfl

@[simp] theorem jumpCutPhase_comboUntil (held : Bool) (p : Player) :
    (jumpCutPhase held p).comboUntil = p.comboUntil := by
  unfold jumpCutPhase
  try dsimp only
  (repeat' split) <;> rfl

@[simp] theorem jumpCutPhase_w (held : Bool) (p : Player) :
    (jumpCutPhase held p).w = p.w := by
  unfold jumpCutPhase
  try dsimp only
  (repeat' split) <;> rfl

@[simp] theorem jumpCutPhase_h (held : Bool) (p : Player) :
    (jumpCutPhase held p).h = p.h := by
  unfold jumpCutPhase
  try dsimp only
  (repeat' split) <;> rfl

@[simp] theorem trigger_player (r : String) (n : ℚ) (st : GameState) :
    (triggerGameOver r n st).player = st.player := by
  unfold triggerGameOver
  try dsimp only
  (repeat' split) <;> rfl

@[simp] theorem trigger_ghost (r : String) (n : ℚ) (st : GameState) :
    (triggerGameOver r n st).ghost = st.ghost := by
  unfold triggerGameOver
  try dsimp only
  (repeat' split) <;> rfl

@[simp] theorem trigger_sword (r : String) (n : ℚ) (st : GameState) :
    (triggerGameOver r n st).sword = st.sword := by
  unfold triggerGameOver
  try dsimp only
  (repeat' split) <;> rfl

@[simp] theorem trigger_camX (r : String) (n : ℚ) (st : GameState) :
    (triggerGameOver r n st).camX = st.camX := by
  unfold triggerGameOver
  try dsimp only
  (repeat' split) <;> rfl

@[simp] theorem trigger_baseScroll (r : String) (n : ℚ) (st : GameState) :
    (triggerGameOver r n st).baseScroll = st.baseScroll := by
  unfold triggerGameOver
  try dsimp only
  (repeat' split) <;> rfl

@[simp] theorem trigger_started (r : String) (n : ℚ) (st : GameState) :
    (triggerGameOver r n st).started = st.started := by
  unfold triggerGameOver
  try dsimp only
  (repeat' split) <;> rfl

@[simp] theorem trigger_startedAt (r : String) (n : ℚ) (st : GameState) :
    (triggerGameOver r n st).startedAt = st.startedAt := by
  unfold triggerGameOver
  try dsimp only
  (repeat' split) <;> rfl

@[simp] theorem trigger_ghostsRepelled (r : String) (n : ℚ) (st : GameState) :
    (triggerGameOver r n st).ghostsRepelled = st.ghostsRepelled := by
  unfold triggerGameOver
  try dsimp only
  (repeat' split) <;> rfl

@[simp] theorem trigger_ground (r : String) (n : ℚ) (st : GameState) :
    (triggerGameOver r n st).ground = st.ground := by
  unfold triggerGameOver
  try dsimp only
  (repeat' split) <;> rfl

@[simp] theorem trigger_platforms (r : String) (n : ℚ) (st : GameState) :
    (triggerGameOver r n st).platforms = st.platforms := by
  unfold triggerGameOver
  try dsimp only
  (repeat' split) <;> rfl

@[simp] theorem trigger_nextSwordSpawnAt (r : String) (n : ℚ) (st : GameState) :
    (triggerGameOver r n st).nextSwordSpawnAt = st.nextSwordSpawnAt := by
  unfold triggerGameOver
  try dsimp only
  (repeat' split) <;> rfl

@[simp] theorem fallCheck_player (H n : ℚ) (st : GameState) :
    (fallCheck H n st).player = st.player := by
  unfold fallCheck triggerGameOver
  try dsimp only
  (repeat' split) <;> rfl

@[simp] theorem fallCheck_ghost (H n : ℚ) (st : GameState) :
    (fallCheck H n st).ghost = st.ghost := by
  unfold fallCheck triggerGameOver
  try dsimp only
  (repeat' split) <;> rfl

@[simp] theorem fallCheck_sword (H n : ℚ) (st : GameState) :
    (fallCheck H n st).sword = st.sword := by
  unfold fallCheck triggerGameOver
  try dsimp only
  (repeat' split) <;> rfl

@[simp] theorem fallCheck_camX (H n : ℚ) (st : GameState) :
    (fallCheck H n st).camX = st.camX := by
  unfold fallCheck triggerGameOver
  try dsimp only
  (repeat' split) <;> rfl

@[simp] theorem fallCheck_baseScroll (H n : ℚ) (st : GameState) :
    (fallCheck H n st).baseScroll = st.baseScroll := by
  unfold fallCheck triggerGameOver
  try dsimp only
  (repeat' split) <;> rfl

@[simp] theorem fallCheck_ground (H n : ℚ) (st : GameState) :
    (fallCheck H n st).ground = st.ground := by
  unfold fallCheck triggerGameOver
  try dsimp only
  (repeat' split) <;> rfl

@[simp] theorem fallCheck_platforms (H n : ℚ) (st : GameState) :
    (fallCheck H n st).platforms = st.platforms := by
  unfold fallCheck triggerGameOver
  try dsimp only
  (repeat' split) <;> rfl

@[simp] theorem fallCheck_started (H n : ℚ) (st : GameState) :
    (fallCheck H n st).started = st.started := by
  unfold fallCheck triggerGameOver
  try dsimp only
  (repeat' split) <;> rfl

@[simp] theorem fallCheck_startedAt (H n : ℚ) (st : GameState) :
    (fallCheck H n st).startedAt = st.startedAt := by
  unfold fallCheck triggerGameOver
  try dsimp only
  (repeat' split) <;> rfl

@[simp] theorem fallCheck_ghostsRepelled (H n : ℚ) (st : GameState) :
    (fallCheck H n st).ghostsRepelled = st.ghostsRepelled := by
  unfold fallCheck triggerGameOver
  try dsimp only
  (repeat' split) <;> rfl

@[simp] theorem attackDir_ghost (a : Bool) (n : ℚ) (st : GameState) :
    (attackDirPhase a n st).ghost = st.ghost := by
  unfold attackDirPhase
  try dsimp only
  (repeat' split) <;> rfl

@[simp] theorem attackDir_sword (a : Bool) (n : ℚ) (st : GameState) :
    (attackDirPhase a n st).sword = st.sword := by
  unfold attackDirPhase
  try dsimp only
  (repeat' split) <;> rfl

@[simp] theorem attackDir_camX (a : Bool) (n : ℚ) (st : GameState) :
    (attackDirPhase a n st).camX = st.camX := by
  unfold attackDirPhase
  try dsimp only
  (repeat' split) <;> rfl

@[simp] theorem attackDir_baseScroll (a : Bool) (n : ℚ) (st : GameState) :
    (attackDirPhase a n st).baseScroll = st.baseScroll := by
  unfold attackDirPhase
  try dsimp only
  (repeat' split) <;> rfl

@[simp] theorem attackDir_started (a : Bool) (n : ℚ) (st : GameState) :
    (attackDirPhase a n st).started = st.started := by
  unfold attackDirPhase
  try dsimp only
  (repeat' split) <;> rfl

@[simp] theorem attackDir_gameOver (a : Bool) (n : ℚ) (st : GameState) :
    (attackDirPhase a n st).gameOver = st.gameOver := by
  unfold attackDirPhase
  try dsimp only
  (repeat' split) <;> rfl

@[simp] theorem attackDir_gameOverReason (a : Bool) (n : ℚ) (st : GameState) :
    (attackDirPhase a n st).gameOverReason = st.gameOverReason := by
  unfold attackDirPhase
  try dsimp only
  (repeat' split) <;> rfl

@[simp] theorem attackDir_best (a : Bool) (n : ℚ) (st : GameState) :
    (attackDirPhase a n st).best = st.best := by
  unfold attackDirPhase
  try dsimp only
  (repeat' split) <;> rfl

@[simp] theorem attackDir_startedAt (a : Bool) (n : ℚ) (st : GameState) :
    (attackDirPhase a n st).startedAt = st.startedAt := by
  unfold attackDirPhase
  try dsimp only
  (repeat' split) <;> rfl

@[simp] theorem attackDir_ghostsRepelled (a : Bool) (n : ℚ) (st : GameState) :
    (attackDirPhase a n st).ghostsRepelled = st.ghostsRepelled := by
  unfold attackDirPhase
  try dsimp only
  (repeat' split) <;> rfl

@[simp] theorem attackDir_ground (a : Bool) (n : ℚ) (st : GameState) :
    (attackDirPhase a n st).ground = st.ground := by
  unfold attackDirPhase
  try dsimp only
  (repeat' split) <;> rfl

@[simp] theorem attackDir_platforms (a : Bool) (n : ℚ) (st : GameState) :
    (attackDirPhase a n st).platforms = st.platforms := by
  unfold attackDirPhase
  try dsimp only
  (repeat' split) <;> rfl

@[simp] theorem attackDir_p_x (a : Bool) (n : ℚ) (st : GameState) :
    (attackDirPhase a n st).player.x = st.player.x := by
  unfold attackDirPhase
  try dsimp only
  (repeat' split) <;> rfl

@[simp] theorem attackDir_p_y (a : Bool) (n : ℚ) (st : GameState) :
    (attackDirPhase a n st).player.y = st.player.y := by
  unfold attackDirPhase
  try dsimp only
  (repeat' split) <;> rfl

@[simp] theorem attackDir_p_vx (a : Bool) (n : ℚ) (st : GameState) :
    (attackDirPhase a n st).player.vx = st.player.vx := by
  unfold attackDirPhase
  try dsimp only
  (repeat' split) <;> rfl

@[simp] theorem attackDir_p_vy (a : Bool) (n : ℚ) (st : GameState) :
    (attackDirPhase a n st).player.vy = st.player.vy := by
  unfold attackDirPhase
  try dsimp only
  (repeat' split) <;> rfl

@[simp] theorem attackDir_p_coyote (a : Bool) (n : ℚ) (st : GameState) :
    (attackDirPhase a n st).player.coyote = st.player.coyote := by
  unfold attackDirPhase
  try dsimp only
  (repeat' split) <;> rfl

@[simp] theorem attackDir_p_jumpBuffer (a : Bool) (n : ℚ) (st : GameState) :
    (attackDirPhase a n st).player.jumpBuffer = st.player.jumpBuffer := by
  unfold attackDirPhase
  try dsimp only
  (repeat' split) <;> rfl

@[simp] theorem attackDir_p_combo (a : Bool) (n : ℚ) (st : GameState) :
    (attackDirPhase a n st).player.combo = st.player.combo := by
  unfold attackDirPhase
  try dsimp only
  (repeat' split) <;> rfl

@[simp] theorem attackDir_p_comboUntil (a : Bool) (n : ℚ) (st : GameState) :
    (attackDirPhase a n st).player.comboUntil = st.player.comboUntil := by
  unfold attackDirPhase
  try dsimp only
  (repeat' split) <;> rfl

@[simp] theorem attackDir_p_hasSword (a : Bool) (n : ℚ) (st : GameState) :
    (attackDirPhase a n st).player.hasSword = st.player.hasSword := by
  unfold attackDirPhase
  try dsimp only
  (repeat' split) <;> rfl

@[simp] theorem attackDir_p_swordUntil (a : Bool) (n : ℚ) (st : GameState) :
    (attackDirPhase a n st).player.swordUntil = st.player.swordUntil := by
  unfold attackDirPhase
  try dsimp only
  (repeat' split) <;> rfl

@[simp] theorem attackDir_p_rainbow (a : Bool) (n : ℚ) (st : GameState) :
    (attackDirPhase a n st).player.rainbow = st.player.rainbow := by
  unfold attackDirPhase
  try dsimp only
  (repeat' split) <;> rfl

@[simp] theorem attackDir_p_power (a : Bool) (n : ℚ) (st : GameState) :
    (attackDirPhase a n st).player.power = st.player.power := by
  unfold attackDirPhase
  try dsimp only
  (repeat' split) <;> rfl

@[simp] theorem attackDir_p_w (a : Bool) (n : ℚ) (st : GameState) :
    (attackDirPhase a n st).player.w = st.player.w := by
  unfold attackDirPhase
  try dsimp only
  (repeat' split) <;> rfl

@[simp] theorem attackDir_p_h (a : Bool) (n : ℚ) (st : GameState) :
    (attackDirPhase a n st).player.h = st.player.h := by
  unfold attackDirPhase
  try dsimp only
  (repeat' split) <;> rfl

@[simp] theorem attackDir_p_onGround (a : Bool) (n : ℚ) (st : GameState) :
    (attackDirPhase a n st).player.onGround = st.player.onGround := by
  unfold attackDirPhase
  try dsimp only
  (repeat' split) <;> rfl

@[simp] theorem pickup_ghost (n : ℚ) (st : GameState) :
    (pickupPhase n st).ghost = st.ghost := by
  unfold pickupPhase
  try dsimp only
  (repeat' split) <;> rfl

@[simp] theorem pickup_camX (n : ℚ) (st : GameState) :
    (pickupPhase n st).camX = st.camX := by
  unfold pickupPhase
  try dsimp only
  (repeat' split) <;> rfl

@[simp] theorem pickup_baseScroll (n : ℚ) (st : GameState) :
    (pickupPhase n st).baseScroll = st.baseScroll := by
  unfold pickupPhase
  try dsimp only
  (repeat' split) <;> rfl

@[simp] theorem pickup_started (n : ℚ) (st : GameState) :
    (pickupPhase n st).started = st.started := by
  unfold pickupPhase
  try dsimp only
  (repeat' split) <;> rfl

@[simp] theorem pickup_gameOver (n : ℚ) (st : GameState) :
    (pickupPhase n st).gameOver = st.gameOver := by
  unfold pickupPhase
  try dsimp only
  (repeat' split) <;> rfl

@[simp] theorem pickup_gameOverReason (n : ℚ) (st : GameState) :
    (pickupPhase n st).gameOverReason = st.gameOverReason := by
  unfold pickupPhase
  try dsimp only
  (repeat' split) <;> rfl

@[simp] theorem pickup_best (n : ℚ) (st : GameState) :
    (pickupPhase n st).best = st.best := by
  unfold pickupPhase
  try dsimp only
  (repeat' split) <;> rfl

@[simp] theorem pickup_startedAt (n : ℚ) (st : GameState) :
    (pickupPhase n st).startedAt = st.startedAt := by
  unfold pickupPhase
  try dsimp only
  (repeat' split) <;> rfl

@[simp] theorem pickup_ghostsRepelled (n : ℚ) (st : GameState) :
    (pickupPhase n st).ghostsRepelled = st.ghostsRepelled := by
  unfold pickupPhase
  try dsimp only
  (repeat' split) <;> rfl

@[simp] theorem pickup_ground (n : ℚ) (st : GameState) :
    (pickupPhase n st).ground = st.ground := by
  unfold pickupPhase
  try dsimp only
  (repeat' split) <;> rfl

@[simp] theorem pickup_platforms (n : ℚ) (st : GameState) :
    (pickupPhase n st).platforms = st.platforms := by
  unfold pickupPhase
  try dsimp only
  (repeat' split) <;> rfl

@[simp] theorem pickup_nextSwordSpawnAt (n : ℚ) (st : GameState) :
    (pickupPhase n st).nextSwordSpawnAt = st.nextSwordSpawnAt := by
  unfold pickupPhase
  try dsimp only
  (repeat' split) <;> rfl

@[simp] theorem pickup_p_x (n : ℚ) (st : GameState) :
    (pickupPhase n st).player.x = st.player.x := by
  unfold pickupPhase
  try dsimp only
  (repeat' split) <;> rfl

@[simp] theorem pickup_p_y (n : ℚ) (st : GameState) :
    (pickupPhase n st).player.y = st.player.y := by
  unfold pickupPhase
  try dsimp only
  (repeat' split) <;> rfl

@[simp] theorem pickup_p_vx (n : ℚ) (st : GameState) :
    (pickupPhase n st).player.vx = st.player.vx := by
  unfold pickupPhase
  try dsimp only
  (repeat' split) <;> rfl

@[simp] theorem pickup_p_vy (n : ℚ) (st : GameState) :
    (pickupPhase n st).player.vy = st.player.vy := by
  unfold pickupPhase
  try dsimp only
  (repeat' split) <;> rfl

@[simp] theorem pickup_p_coyote (n : ℚ) (st : GameState) :
    (pickupPhase n st).player.coyote = st.player.coyote := by
  unfold pickupPhase
  try dsimp only
  (repeat' split) <;> rfl

@[simp] theorem pickup_p_jumpBuffer (n : ℚ) (st : GameState) :
    (pickupPhase n st).player.jumpBuffer = st.player.jumpBuffer := by
  unfold pickupPhase
  try dsimp only
  (repeat' split) <;> rfl

@[simp] theorem pickup_p_attackUntil (n : ℚ) (st : GameState) :
    (pickupPhase n st).player.attackUntil = st.player.attackUntil := by
  unfold pickupPhase
  try dsimp only
  (repeat' split) <;> rfl

@[simp] theorem pickup_p_attackDir (n : ℚ) (st : GameState) :
    (pickupPhase n st).player.attackDir = st.player.attackDir := by
  unfold pickupPhase
  try dsimp only
  (repeat' split) <;> rfl

@[simp] theorem pickup_p_rainbow (n : ℚ) (st : GameState) :
    (pickupPhase n st).player.rainbow = st.player.rainbow := by
  unfold pickupPhase
  try dsimp only
  (repeat' split) <;> rfl

@[simp] theorem pickup_p_power (n : ℚ) (st : GameState) :
    (pickupPhase n st).player.power = st.player.power := by
  unfold pickupPhase
  try dsimp only
  (repeat' split) <;> rfl

@[simp] theorem pickup_p_w (n : ℚ) (st : GameState) :
    (pickupPhase n st).player.w = st.player.w := by
  unfold pickupPhase
  try dsimp only
  (repeat' split) <;> rfl

@[simp] theorem pickup_p_h (n : ℚ) (st : GameState) :
    (pickupPhase n st).player.h = st.player.h := by
  unfold pickupPhase
  try dsimp only
  (repeat' split) <;> rfl

@[simp] theorem pickup_p_onGround (n : ℚ) (st : GameState) :
    (pickupPhase n st).player.onGround = st.player.onGround := by
  unfold pickupPhase
  try dsimp only
  (repeat' split) <;> rfl

@[simp] theorem expiry_ghost (n : ℚ) (st : GameState) :
    (expiryPhase n st).ghost = st.ghost := by
  unfold expiryPhase
  try dsimp only
  (repeat' split) <;> rfl

@[simp] theorem expiry_sword (n : ℚ) (st : GameState) :
    (expiryPhase n st).sword = st.sword := by
  unfold expiryPhase
  try dsimp only
  (repeat' split) <;> rfl

@[simp] theorem expiry_camX (n : ℚ) (st : GameState) :
    (expiryPhase n st).camX = st.camX := by
  unfold expiryPhase
  try dsimp only
  (repeat' split) <;> rfl

@[simp] theorem expiry_baseScroll (n : ℚ) (st : GameState) :
    (expiryPhase n st).baseScroll = st.baseScroll := by
  unfold expiryPhase
  try dsimp only
  (repeat' split) <;> rfl

@[simp] theorem expiry_started (n : ℚ) (st : GameState) :
    (expiryPhase n st).started = st.started := by
  unfold expiryPhase
  try dsimp only
  (repeat' split) <;> rfl

@[simp] theorem expiry_gameOver (n : ℚ) (st : GameState) :
    (expiryPhase n st).gameOver = st.gameOver := by
  unfold expiryPhase
  try dsimp only
  (repeat' split) <;> rfl

@[simp] theorem expiry_gameOverReason (n : ℚ) (st : GameState) :
    (expiryPhase n st).gameOverReason = st.gameOverReason := by
  unfold expiryPhase
  try dsimp only
  (repeat' split) <;> rfl

@[simp] theorem expiry_best (n : ℚ) (st : GameState) :
    (expiryPhase n st).best = st.best := by
  unfold expiryPhase
  try dsimp only
  (repeat' split) <;> rfl

@[simp] theorem expiry_startedAt (n : ℚ) (st : GameState) :
    (expiryPhase n st).startedAt = st.startedAt := by
  unfold expiryPhase
  try dsimp only
  (repeat' split) <;> rfl

@[simp] theorem expiry_ghostsRepelled (n : ℚ) (st : GameState) :
    (expiryPhase n st).ghostsRepelled = st.ghostsRepelled := by
  unfold expiryPhase
  try dsimp only
  (repeat' split) <;> rfl

@[simp] theorem expiry_ground (n : ℚ) (st : GameState) :
    (expiryPhase n st).ground = st.ground := by
  unfold expiryPhase
  try dsimp only
  (repeat' split) <;> rfl

@[simp] theorem expiry_platforms (n : ℚ) (st : GameState) :
    (expiryPhase n st).platforms = st.platforms := by
  unfold expiryPhase
  try dsimp only
  (repeat' split) <;> rfl

@[simp] theorem expiry_p_x (n : ℚ) (st : GameState) :
    (expiryPhase n st).player.x = st.player.x := by
  unfold expiryPhase
  try dsimp only
  (repeat' split) <;> rfl

@[simp] theorem expiry_p_y (n : ℚ) (st : GameState) :
    (expiryPhase n st).player.y = st.player.y := by
  unfold expiryPhase
  try dsimp only
  (repeat' split) <;> rfl

@[simp] theorem expiry_p_vx (n : ℚ) (st : GameState) :
    (expiryPhase n st).player.vx = st.player.vx := by
  unfold expiryPhase
  try dsimp only
  (repeat' split) <;> rfl

@[simp] theorem expiry_p_vy (n : ℚ) (st : GameState) :
    (expiryPhase n st).player.vy = st.player.vy := by
  unfold expiryPhase
  try dsimp only
  (repeat' split) <;> rfl

@[simp] theorem expiry_p_coyote (n : ℚ) (st : GameState) :
    (expiryPhase n st).player.coyote = st.player.coyote := by
  unfold expiryPhase
  try dsimp only
  (repeat' split) <;> rfl

@[simp] theorem expiry_p_jumpBuffer (n : ℚ) (st : GameState) :
    (expiryPhase n st).player.jumpBuffer = st.player.jumpBuffer := by
  unfold expiryPhase
  try dsimp only
  (repeat' split) <;> rfl

@[simp] theorem expiry_p_swordUntil (n : ℚ) (st : GameState) :
    (expiryPhase n st).player.swordUntil = st.player.swordUntil := by
  unfold expiryPhase
  try dsimp only
  (repeat' split) <;> rfl

@[simp] theorem expiry_p_attackDir (n : ℚ) (st : GameState) :
    (expiryPhase n st).player.attackDir = st.player.attackDir := by
  unfold expiryPhase
  try dsimp only
  (repeat' split) <;> rfl

@[simp] theorem expiry_p_rainbow (n : ℚ) (st : GameState) :
    (expiryPhase n st).player.rainbow = st.player.rainbow := by
  unfold expiryPhase
  try dsimp only
  (repeat' split) <;> rfl

@[simp] theorem expiry_p_power (n : ℚ) (st : GameState) :
    (expiryPhase n st).player.power = st.player.power := by
  unfold expiryPhase
  try dsimp only
  (repeat' split) <;> rfl

@[simp] theorem expiry_p_w (n : ℚ) (st : GameState) :
    (expiryPhase n st).player.w = st.player.w := by
  unfold expiryPhase
  try dsimp only
  (repeat' split) <;> rfl

@[simp] theorem expiry_p_h (n : ℚ) (st : GameState) :
    (expiryPhase n st).player.h = st.player.h := by
  unfold expiryPhase
  try dsimp only
  (repeat' split) <;> rfl

@[simp] theorem expiry_p_onGround (n : ℚ) (st : GameState) :
    (expiryPhase n st).player.onGround = st.player.onGround := by
  unfold expiryPhase
  try dsimp only
  (repeat' split) <;> rfl

@[simp] theorem updateGhost_player (env : Env) (n dt t : ℚ) (st : GameState) :
    (updateGhost env n dt t st).player = st.player := by
  rfl

@[simp] theorem updateGhost_sword (env : Env) (n dt t : ℚ) (st : GameState) :
    (updateGhost env n dt t st).sword = st.sword := by
  rfl

@[simp] theorem updateGhost_camX (env : Env) (n dt t : ℚ) (st : GameState) :
    (updateGhost env n dt t st).camX = st.camX := by
  rfl

@[simp] theorem updateGhost_ground (env : Env) (n dt t : ℚ) (st : GameState) :
    (updateGhost env n dt t st).ground = st.ground := by
  rfl

@[simp] theorem updateGhost_platforms (env : Env) (n dt t : ℚ) (st : GameState) :
    (updateGhost env n dt t st).platforms = st.platforms := by
  rfl

@[simp] theorem updateGhost_started (env : Env) (n dt t : ℚ) (st : GameState) :
    (updateGhost env n dt t st).started = st.started := by
  rfl

@[simp] theorem updateGhost_gameOver (env : Env) (n dt t : ℚ) (st : GameState) :
    (updateGhost env n dt t st).gameOver = st.gameOver := by
  rfl

@[simp] theorem updateGhost_gameOverReason (env : Env) (n dt t : ℚ) (st : GameState) :
    (updateGhost env n dt t st).gameOverReason = st.gameOverReason := by
  rfl

@[simp] theorem updateGhost_best (env : Env) (n dt t : ℚ) (st : GameState) :
    (updateGhost env n dt t st).best = st.best := by
  rfl

@[simp] theorem updateGhost_startedAt (env : Env) (n dt t : ℚ) (st : GameState) :
    (updateGhost env n dt t st).startedAt = st.startedAt := by
  rfl

@[simp] theorem updateGhost_ghostsRepelled (env : Env) (n dt t : ℚ) (st : GameState) :
    (updateGhost env n dt t st).ghostsRepelled = st.ghostsRepelled := by
  rfl

@[simp] theorem updateGhost_nextSwordSpawnAt (env : Env) (n dt t : ℚ) (st : GameState) :
    (updateGhost env n dt t st).nextSwordSpawnAt = st.nextSwordSpawnAt := by
  rfl

@[simp] theorem comboDecay_ghost (n : ℚ) (st : GameState) :
    (comboDecay n st).ghost = st.ghost := by
  unfold comboDecay
  try dsimp only
  (repeat' split) <;> rfl

@[simp] theorem comboDecay_sword (n : ℚ) (st : GameState) :
    (comboDecay n st).sword = st.sword := by
  unfold comboDecay
  try dsimp only
  (repeat' split) <;> rfl

@[simp] theorem comboDecay_camX (n : ℚ) (st : GameState) :
    (comboDecay n st).camX = st.camX := by
  unfold comboDecay
  try dsimp only
  (repeat' split) <;> rfl

@[simp] theorem comboDecay_baseScroll (n : ℚ) (st : GameState) :
    (comboDecay n st).baseScroll = st.baseScroll := by
  unfold comboDecay
  try dsimp only
  (repeat' split) <;> rfl

@[simp] theorem comboDecay_started (n : ℚ) (st : GameState) :
    (comboDecay n st).started = st.started := by
  unfold comboDecay
  try dsimp only
  (repeat' split) <;> rfl

@[simp] theorem comboDecay_gameOver (n : ℚ) (st : GameState) :
    (comboDecay n st).gameOver = st.gameOver := by
  unfold comboDecay
  try dsimp only
  (repeat' split) <;> rfl

@[simp] theorem comboDecay_gameOverReason (n : ℚ) (st : GameState) :
    (comboDecay n st).gameOverReason = st.gameOverReason := by
  unfold comboDecay
  try dsimp only
  (repeat' split) <;> rfl

@[simp] theorem comboDecay_best (n : ℚ) (st : GameState) :
    (comboDecay n st).best = st.best := by
  unfold comboDecay
  try dsimp only
  (repeat' split) <;> rfl

@[simp] theorem comboDecay_startedAt (n : ℚ) (st : GameState) :
    (comboDecay n st).startedAt = st.startedAt := by
  unfold comboDecay
  try dsimp only
  (repeat' split) <;> rfl

@[simp] theorem comboDecay_ghostsRepelled (n : ℚ) (st : GameState) :
    (comboDecay n st).ghostsRepelled = st.ghostsRepelled := by
  unfold comboDecay
  try dsimp only
  (repeat' split) <;> rfl

@[simp] theorem comboDecay_ground (n : ℚ) (st : GameState) :
    (comboDecay n st).ground = st.ground := by
  unfold comboDecay
  try dsimp only
  (repeat' split) <;> rfl

@[simp] theorem comboDecay_platforms (n : ℚ) (st : GameState) :
    (comboDecay n st).platforms = st.platforms := by
  unfold comboDecay
  try dsimp only
  (repeat' split) <;> rfl

@[simp] theorem comboDecay_p_x (n : ℚ) (st : GameState) :
    (comboDecay n st).player.x = st.player.x := by
  unfold comboDecay
  try dsimp only
  (repeat' split) <;> rfl

@[simp] theorem comboDecay_p_y (n : ℚ) (st : GameState) :
    (comboDecay n st).player.y = st.player.y := by
  unfold comboDecay
  try dsimp only
  (repeat' split) <;> rfl

@[simp] theorem comboDecay_p_vx (n : ℚ) (st : GameState) :
    (comboDecay n st).player.vx = st.player.vx := by
  unfold comboDecay
  try dsimp only
  (repeat' split) <;> rfl

@[simp] theorem comboDecay_p_vy (n : ℚ) (st : GameState) :
    (comboDecay n st).player.vy = st.player.vy := by
  unfold comboDecay
  try dsimp only
  (repeat' split) <;> rfl

@[simp] theorem comboDecay_p_coyote (n : ℚ) (st : GameState) :
    (comboDecay n st).player.coyote = st.player.coyote := by
  unfold comboDecay
  try dsimp only
  (repeat' split) <;> rfl

@[simp] theorem comboDecay_p_jumpBuffer (n : ℚ) (st : GameState) :
    (comboDecay n st).player.jumpBuffer = st.player.jumpBuffer := by
  unfold comboDecay
  try dsimp only
  (repeat' split) <;> rfl

@[simp] theorem comboDecay_p_hasSword (n : ℚ) (st : GameState) :
    (comboDecay n st).player.hasSword = st.player.hasSword := by
  unfold comboDecay
  try dsimp only
  (repeat' split) <;> rfl

@[simp] theorem comboDecay_p_swordUntil (n : ℚ) (st : GameState) :
    (comboDecay n st).player.swordUntil = st.player.swordUntil := by
  unfold comboDecay
  try dsimp only
  (repeat' split) <;> rfl

@[simp] theorem comboDecay_p_attackUntil (n : ℚ) (st : GameState) :
    (comboDecay n st).player.attackUntil = st.player.attackUntil := by
  unfold comboDecay
  try dsimp only
  (repeat' split) <;> rfl

@[simp] theorem comboDecay_p_attackDir (n : ℚ) (st : GameState) :
    (comboDecay n st).player.attackDir = st.player.attackDir := by
  unfold comboDecay
  try dsimp only
  (repeat' split) <;> rfl

@[simp] theorem comboDecay_p_rainbow (n : ℚ) (st : GameState) :
    (comboDecay n st).player.rainbow = st.player.rainbow := by
  unfold comboDecay
  try dsimp only
  (repeat' split) <;> rfl

@[simp] theorem comboDecay_p_power (n : ℚ) (st : GameState) :
    (comboDecay n st).player.power = st.player.power := by
  unfold comboDecay
  try dsimp only
  (repeat' split) <;> rfl

@[simp] theorem comboDecay_p_w (n : ℚ) (st : GameState) :
    (comboDecay n st).player.w = st.player.w := by
  unfold comboDecay
  try dsimp only
  (repeat' split) <;> rfl

@[simp] theorem comboDecay_p_h (n : ℚ) (st : GameState) :
    (comboDecay n st).player.h = st.player.h := by
  unfold comboDecay
  try dsimp only
  (repeat' split) <;> rfl

@[simp] theorem comboDecay_p_comboUntil (n : ℚ) (st : GameState) :
    (comboDecay n st).player.comboUntil = st.player.comboUntil := by
  unfold comboDecay
  try dsimp only
  (repeat' split) <;> rfl

@[simp] theorem comboDecay_p_onGround (n : ℚ) (st : GameState) :
    (comboDecay n st).player.onGround = st.player.onGround := by
  unfold comboDecay
  try dsimp only
  (repeat' split) <;> rfl

@[simp] theorem hit_sword (n : ℚ) (b : Box) (st : GameState) :
    (hitPhase n b st).sword = st.sword := by
  unfold hitPhase
  try dsimp only
  (repeat' split) <;> rfl

@[simp] theorem hit_camX (n : ℚ) (b : Box) (st : GameState) :
    (hitPhase n b st).camX = st.camX := by
  unfold hitPhase
  try dsimp only
  (repeat' split) <;> rfl

@[simp] theorem hit_baseScroll (n : ℚ) (b : Box) (st : GameState) :
    (hitPhase n b st).baseScroll = st.baseScroll := by
  unfold hitPhase
  try dsimp only
  (repeat' split) <;> rfl

@[simp] theorem hit_started (n : ℚ) (b : Box) (st : GameState) :
    (hitPhase n b st).started = st.started := by
  unfold hitPhase
  try dsimp only
  (repeat' split) <;> rfl

@[simp] theorem hit_gameOver (n : ℚ) (b : Box) (st : GameState) :
    (hitPhase n b st).gameOver = st.gameOver := by
  unfold hitPhase
  try dsimp only
  (repeat' split) <;> rfl

@[simp] theorem hit_gameOverReason (n : ℚ) (b : Box) (st : GameState) :
    (hitPhase n b st).gameOverReason = st.gameOverReason := by
  unfold hitPhase
  try dsimp only
  (repeat' split) <;> rfl

@[simp] theorem hit_best (n : ℚ) (b : Box) (st : GameState) :
    (hitPhase n b st).best = st.best := by
  unfold hitPhase
  try dsimp only
  (repeat' split) <;> rfl

@[simp] theorem hit_startedAt (n : ℚ) (b : Box) (st : GameState) :
    (hitPhase n b st).startedAt = st.startedAt := by
  unfold hitPhase
  try dsimp only
  (repeat' split) <;> rfl

@[simp] theorem hit_ground (n : ℚ) (b : Box) (st : GameState) :
    (hitPhase n b st).ground = st.ground := by
  unfold hitPhase
  try dsimp only
  (repeat' split) <;> rfl

@[simp] theorem hit_platforms (n : ℚ) (b : Box) (st : GameState) :
    (hitPhase n b st).platforms = st.platforms := by
  unfold hitPhase
  try dsimp only
  (repeat' split) <;> rfl

@[simp] theorem hit_p_x (n : ℚ) (b : Box) (st : GameState) :
    (hitPhase n b st).player.x = st.player.x := by
  unfold hitPhase
  try dsimp only
  (repeat' split) <;> rfl

@[simp] theorem hit_p_y (n : ℚ) (b : Box) (st : GameState) :
    (hitPhase n b st).player.y = st.player.y := by
  unfold hitPhase
  try dsimp only
  (repeat' split) <;> rfl

@[simp] theorem hit_p_vx (n : ℚ) (b : Box) (st : GameState) :
    (hitPhase n b st).player.vx = st.player.vx := by
  unfold hitPhase
  try dsimp only
  (repeat' split) <;> rfl

@[simp] theorem hit_p_vy (n : ℚ) (b : Box) (st : GameState) :
    (hitPhase n b st).player.vy = st.player.vy := by
  unfold hitPhase
  try dsimp only
  (repeat' split) <;> rfl

@[simp] theorem hit_p_coyote (n : ℚ) (b : Box) (st : GameState) :
    (hitPhase n b st).player.coyote = st.player.coyote := by
  unfold hitPhase
  try dsimp only
  (repeat' split) <;> rfl

@[simp] theorem hit_p_jumpBuffer (n : ℚ) (b : Box) (st : GameState) :
    (hitPhase n b st).player.jumpBuffer = st.player.jumpBuffer := by
  unfold hitPhase
  try dsimp only
  (repeat' split) <;> rfl

@[simp] theorem hit_p_hasSword (n : ℚ) (b : Box) (st : GameState) :
    (hitPhase n b st).player.hasSword = st.player.hasSword := by
  unfold hitPhase
  try dsimp only
  (repeat' split) <;> rfl

@[simp] theorem hit_p_swordUntil (n : ℚ) (b : Box) (st : GameState) :
    (hitPhase n b st).player.swordUntil = st.player.swordUntil := by
  unfold hitPhase
  try dsimp only
  (repeat' split) <;> rfl

@[simp] theorem hit_p_attackUntil (n : ℚ) (b : Box) (st : GameState) :
    (hitPhase n b st).player.attackUntil = st.player.attackUntil := by
  unfold hitPhase
  try dsimp only
  (repeat' split) <;> rfl

@[simp] theorem hit_p_attackDir (n : ℚ) (b : Box) (st : GameState) :
    (hitPhase n b st).player.attackDir = st.player.attackDir := by
  unfold hitPhase
  try dsimp only
  (repeat' split) <;> rfl

@[simp] theorem hit_p_rainbow (n : ℚ) (b : Box) (st : GameState) :
    (hitPhase n b st).player.rainbow = st.player.rainbow := by
  unfold hitPhase
  try dsimp only
  (repeat' split) <;> rfl

@[simp] theorem hit_p_power (n : ℚ) (b : Box) (st : GameState) :
    (hitPhase n b st).player.power = st.player.power := by
  unfold hitPhase
  try dsimp only
  (repeat' split) <;> rfl

@[simp] theorem hit_p_w (n : ℚ) (b : Box) (st : GameState) :
    (hitPhase n b st).player.w = st.player.w := by
  unfold hitPhase
  try dsimp only
  (repeat' split) <;> rfl

@[simp] theorem hit_p_h (n : ℚ) (b : Box) (st : GameState) :
    (hitPhase n b st).player.h = st.player.h := by
  unfold hitPhase
  try dsimp only
  (repeat' split) <;> rfl

@[simp] theorem hit_p_onGround (n : ℚ) (b : Box) (st : GameState) :
    (hitPhase n b st).player.onGround = st.player.onGround := by
  unfold hitPhase
  try dsimp only
  (repeat' split) <;> rfl

@[simp] theorem spawnSword_player (W : ℚ) (env : Env) (t : ℚ) (st : GameState) :
    (maybeSpawnSword W env t st).player = st.player := by
  unfold maybeSpawnSword
  try dsimp only
  (repeat' split) <;> rfl

@[simp] theorem spawnSword_ghost (W : ℚ) (env : Env) (t : ℚ) (st : GameState) :
    (maybeSpawnSword W env t st).ghost = st.ghost := by
  unfold maybeSpawnSword
  try dsimp only
  (repeat' split) <;> rfl

@[simp] theorem spawnSword_camX (W : ℚ) (env : Env) (t : ℚ) (st : GameState) :
    (maybeSpawnSword W env t st).camX = st.camX := by
  unfold maybeSpawnSword
  try dsimp only
  (repeat' split) <;> rfl

@[simp] theorem spawnSword_baseScroll (W : ℚ) (env : Env) (t : ℚ) (st : GameState) :
    (maybeSpawnSword W env t st).baseScroll = st.baseScroll := by
  unfold maybeSpawnSword
  try dsimp only
  (repeat' split) <;> rfl

@[simp] theorem spawnSword_started (W : ℚ) (env : Env) (t : ℚ) (st : GameState) :
    (maybeSpawnSword W env t st).started = st.started := by
  unfold maybeSpawnSword
  try dsimp only
  (repeat' split) <;> rfl

@[simp] theorem spawnSword_gameOver (W : ℚ) (env : Env) (t : ℚ) (st : GameState) :
    (maybeSpawnSword W env t st).gameOver = st.gameOver := by
  unfold maybeSpawnSword
  try dsimp only
  (repeat' split) <;> rfl

@[simp] theorem spawnSword_gameOverReason (W : ℚ) (env : Env) (t : ℚ) (st : GameState) :
    (maybeSpawnSword W env t st).gameOverReason = st.gameOverReason := by
  unfold maybeSpawnSword
  try dsimp only
  (repeat' split) <;> rfl

@[simp] theorem spawnSword_best (W : ℚ) (env : Env) (t : ℚ) (st : GameState) :
    (maybeSpawnSword W env t st).best = st.best := by
  unfold maybeSpawnSword
  try dsimp only
  (repeat' split) <;> rfl

@[simp] theorem spawnSword_startedAt (W : ℚ) (env : Env) (t : ℚ) (st : GameState) :
    (maybeSpawnSword W env t st).startedAt = st.startedAt := by
  unfold maybeSpawnSword
  try dsimp only
  (repeat' split) <;> rfl

@[simp] theorem spawnSword_ghostsRepelled (W : ℚ) (env : Env) (t : ℚ) (st : GameState) :
    (maybeSpawnSword W env t st).ghostsRepelled = st.ghostsRepelled := by
  unfold maybeSpawnSword
  try dsimp only
  (repeat' split) <;> rfl

@[simp] theorem spawnSword_ground (W : ℚ) (env : Env) (t : ℚ) (st : GameState) :
    (maybeSpawnSword W env t st).ground = st.ground := by
  unfold maybeSpawnSword
  try dsimp only
  (repeat' split) <;> rfl

@[simp] theorem spawnSword_platforms (W : ℚ) (env : Env) (t : ℚ) (st : GameState) :
    (maybeSpawnSword W env t st).platforms = st.platforms := by
  unfold maybeSpawnSword
  try dsimp only
  (repeat' split) <;> rfl

/-! ## Driver path lemmas -/

theorem step_some_postGen (W H : ℚ) (env : Env) (inp : Input) (nowMs dt : ℚ)
    (st st' : GameState) (h : step W H env inp nowMs dt st = some st') :
    ∃ st1, postGen W env ((nowMs - st.startedAt) / 1000) st = some st1 := by
  unfold step at h
  dsimp only at h
  rcases hp : postGen W env ((nowMs - st.startedAt) / 1000) st with _ | s1 <;> rw [hp] at h
  · simp at h
  · exact ⟨s1, rfl⟩

theorem step_run (W H : ℚ) (env : Env) (inp : Input) (nowMs dt : ℚ)
    (st st1 : GameState)
    (hpg : postGen W env ((nowMs - st.startedAt) / 1000) st = some st1)
    (hr : inp.pressed.contains "r" = false)
    (hs : st1.started = true) (hgo : st1.gameOver = false) :
    step W H env inp nowMs dt st =
      some (runBody H env inp nowMs dt ((nowMs - st.startedAt) / 1000) st1) := by
  unfold step
  dsimp only
  rw [hpg]
  simp at hr
  simp [hr, hs, hgo]

theorem step_frozen (W H : ℚ) (env : Env) (inp : Input) (nowMs dt : ℚ)
    (st st1 : GameState)
    (hpg : postGen W env ((nowMs - st.startedAt) / 1000) st = some st1)
    (hr : inp.pressed.contains "r" = false)
    (hover : st1.gameOver = true) :
    step W H env inp nowMs dt st = some st1 := by
  unfold step
  dsimp only
  rw [hpg]
  simp at hr
  simp [hr, hover]

theorem step_restart (W H : ℚ) (env : Env) (inp : Input) (nowMs dt : ℚ)
    (st st1 : GameState)
    (hpg : postGen W env ((nowMs - st.startedAt) / 1000) st = some st1)
    (hr : inp.pressed.contains "r" = true)
    (hsp : startPressed inp = false) :
    step W H env inp nowMs dt st = some (restart env nowMs st1) := by
  unfold step
  dsimp only
  rw [hpg]
  have h1 : (restart env nowMs st1).started = false := rfl
  have h2 : (restart env nowMs st1).gameOver = false := rfl
  simp at hr
  simp [hr, hsp, h1, h2]

/-! ## Combat-composite frame simp lemmas -/

@[simp] theorem combat_p_x (n : ℚ) (st : GameState) :
    (combatAndCatch n st).player.x = st.player.x := by
  unfold combatAndCatch; dsimp only; split <;> simp

@[simp] theorem combat_p_y (n : ℚ) (st : GameState) :
    (combatAndCatch n st).player.y = st.player.y := by
  unfold combatAndCatch; dsimp only; split <;> simp

@[simp] theorem combat_p_vx (n : ℚ) (st : GameState) :
    (combatAndCatch n st).player.vx = st.player.vx := by
  unfold combatAndCatch; dsimp only; split <;> simp

@[simp] theorem combat_p_vy (n : ℚ) (st : GameState) :
    (combatAndCatch n st).player.vy = st.player.vy := by
  unfold combatAndCatch; dsimp only; split <;> simp

@[simp] theorem combat_p_coyote (n : ℚ) (st : GameState) :
    (combatAndCatch n st).player.coyote = st.player.coyote := by
  unfold combatAndCatch; dsimp only; split <;> simp

@[simp] theorem combat_p_jumpBuffer (n : ℚ) (st : GameState) :
    (combatAndCatch n st).player.jumpBuffer = st.player.jumpBuffer := by
  unfold combatAndCatch; dsimp only; split <;> simp

@[simp] theorem combat_p_hasSword (n : ℚ) (st : GameState) :
    (combatAndCatch n st).player.hasSword = st.player.hasSword := by
  unfold combatAndCatch; dsimp only; split <;> simp

@[simp] theorem combat_p_swordUntil (n : ℚ) (st : GameState) :
    (combatAndCatch n st).player.swordUntil = st.player.swordUntil := by
  unfold combatAndCatch; dsimp only; split <;> simp

@[simp] theorem combat_p_attackUntil (n : ℚ) (st : GameState) :
    (combatAndCatch n st).player.attackUntil = st.player.attackUntil := by
  unfold combatAndCatch; dsimp only; split <;> simp

@[simp] theorem combat_p_attackDir (n : ℚ) (st : GameState) :
    (combatAndCatch n st).player.attackDir = st.player.attackDir := by
  unfold combatAndCatch; dsimp only; split <;> simp

@[simp] theorem combat_p_rainbow (n : ℚ) (st : GameState) :
    (combatAndCatch n st).player.rainbow = st.player.rainbow := by
  unfold combatAndCatch; dsimp only; split <;> simp

@[simp] theorem combat_p_power (n : ℚ) (st : GameState) :
    (combatAndCatch n st).player.power = st.player.power := by
  unfold combatAndCatch; dsimp only; split <;> simp

@[simp] theorem combat_p_w (n : ℚ) (st : GameState) :
    (combatAndCatch n st).player.w = st.player.w := by
  unfold combatAndCatch; dsimp only; split <;> simp

@[simp] theorem combat_p_h (n : ℚ) (st : GameState) :
    (combatAndCatch n st).player.h = st.player.h := by
  unfold combatAndCatch; dsimp only; split <;> simp

@[simp] theorem combat_sword (n : ℚ) (st : GameState) :
    (combatAndCatch n st).sword = st.sword := by
  unfold combatAndCatch; dsimp only; split <;> simp

@[simp] theorem combat_camX (n : ℚ) (st : GameState) :
    (combatAndCatch n st).camX = st.camX := by
  unfold combatAndCatch; dsimp only; split <;> simp

@[simp] theorem combat_baseScroll (n : ℚ) (st : GameState) :
    (combatAndCatch n st).baseScroll = st.baseScroll := by
  unfold combatAndCatch; dsimp only; split <;> simp

@[simp] theorem combat_started (n : ℚ) (st : GameState) :
    (combatAndCatch n st).started = st.started := by
  unfold combatAndCatch; dsimp only; split <;> simp

@[simp] theorem combat_startedAt (n : ℚ) (st : GameState) :
    (combatAndCatch n st).startedAt = st.startedAt := by
  unfold combatAndCatch; dsimp only; split <;> simp

/-! ## postGen on already-satisfied states -/

theorem postGen_fixed (t : ℚ) (st : GameState)
    (hgr : st.ground = [⟨-600, groundY, 2600, 40⟩])
    (hpl : st.platforms = [⟨0, 20, 800, 10⟩])
    (hcam : st.camX = 0) (ht : t < st.nextSwordSpawnAt) :
    postGen 100 baseEnv t st = some st := by
  have hground : ensureGroundAhead 100 st.camX baseEnv.groundChoices st.ground =
      some (2000, st.ground) := by
    rw [hgr, hcam]
    norm_num [ensureGroundAhead, groundLoop, farInit, groundY, baseEnv]
  have hplat : ensurePlatformsAhead 100 st.camX baseEnv.platChoices st.genMode
      st.genModeLeft st.lastPlatY st.platforms =
      some (st.genMode, st.genModeLeft, st.lastPlatY, 800, st.platforms) := by
    rw [hpl, hcam]
    norm_num [ensurePlatformsAhead, platLoop, platFarInit, baseEnv]
  unfold postGen
  rw [hground, hplat]
  dsimp only
  have heta : ({ st with
      ground := st.ground, platforms := st.platforms,
      genMode := st.genMode, genModeLeft := st.genModeLeft,
      lastPlatY := st.lastPlatY } : GameState) = st := rfl
  rw [heta]
  unfold maybeSpawnSword
  rw [if_pos ht]

/-- C2: in a running tick, the jump fires iff the buffered jump countdown and
the coyote countdown are both still positive at the jump-resolution point
(after the timer decrements, the press re-arm and the landing re-arm of
this tick); a firing jump sets `vy` to the launch value `-JUMP_V * power`
(then subject only to the variable-jump cut) and consumes both countdowns;
otherwise the tick leaves `vy` exactly as integration/landing produced it
(again subject only to the cut) and merely lets both countdowns run. -/
theorem c2_jump_iff (W H : ℚ) (env : Env) (inp : Input) (nowMs dt : ℚ)
    (st st1 : GameState)
    (hpg : postGen W env ((nowMs - st.startedAt) / 1000) st = some st1)
    (hr : inp.pressed.contains "r" = false)
    (hs : st1.started = true) (hgo : st1.gameOver = false) :
    step W H env inp nowMs dt st =
      some (runBody H env inp nowMs dt ((nowMs - st.startedAt) / 1000) st1) ∧
    (let p2 := resolveCollisions st1.ground st1.platforms st1.camX dt
        (physIntegrate inp dt st1.player)
     let res := runBody H env inp nowMs dt ((nowMs - st.startedAt) / 1000) st1
     res.player.vy =
       (jumpCutPhase (jumpHeld inp)
         (if 0 < p2.jumpBuffer ∧ 0 < p2.coyote then
            { p2 with
              vy := -(JUMP_V * p2.power), onGround := false,
              coyote := 0, jumpBuffer := 0 }
          else p2)).vy ∧
     res.player.coyote = (if 0 < p2.jumpBuffer ∧ 0 < p2.coyote then 0 else p2.coyote) ∧
     res.player.jumpBuffer =
       (if 0 < p2.jumpBuffer ∧ 0 < p2.coyote then 0 else p2.jumpBuffer)) := by
  refine ⟨step_run W H env inp nowMs dt st st1 hpg hr hs hgo, ?_, ?_, ?_⟩
  · dsimp only [runBody, preCombat, prePickup]
    simp [jumpResolve]
  · dsimp only [runBody, preCombat, prePickup]
    simp [jumpResolve, apply_ite Player.coyote]
  · dsimp only [runBody, preCombat, prePickup]
    simp [jumpResolve, apply_ite Player.jumpBuffer]

/-- Witness for `c2_jump_iff`: on `jumpState` (coyote window open, jump
pressed this tick, no landing) the jump fires, launching at `-380` — cut to
`-209` because the jump key is not held — and zeroing both countdowns. -/
theorem c2_jump_iff_witness :
    jumpState.started = true ∧ jumpState.gameOver = false ∧
    ((step 100 100 baseEnv ⟨[], [" "]⟩ 1000 (1/60) jumpState).map
      fun s => s.player.vy) = some (-209) ∧
    ((step 100 100 baseEnv ⟨[], [" "]⟩ 1000 (1/60) jumpState).map
      fun s => s.player.coyote) = some 0 ∧
    ((step 100 100 baseEnv ⟨[], [" "]⟩ 1000 (1/60) jumpState).map
      fun s => s.player.jumpBuffer) = some 0 := by
  have hpg : postGen 100 baseEnv ((1000 - jumpState.startedAt) / 1000) jumpState =
      some jumpState :=
    postGen_fixed _ _ rfl rfl rfl (by norm_num [jumpState, baseState])
  obtain ⟨hstep, h1, h2, h3⟩ :=
    c2_jump_iff 100 100 baseEnv ⟨[], [" "]⟩ 1000 (1/60) jumpState jumpState hpg rfl rfl rfl
  refine ⟨rfl, rfl, ?_, ?_, ?_⟩
  · rw [hstep]
    simp only [Option.map_some']
    rw [h1]
    norm_num [resolveCollisions, physIntegrate, landable, jumpCutPhase, jumpHeld,
      clamp, JUMP_V, JUMP_BUFFER, JUMP_CUT, GRAVITY, MOVE_AIR, MOVE_GROUND,
      COYOTE_TIME, jumpState, baseState, basePlayer, groundY, List.find?]
  · rw [hstep]
    simp only [Option.map_some']
    rw [h2]
    norm_num [resolveCollisions, physIntegrate, landable, clamp, JUMP_BUFFER,
      GRAVITY, MOVE_AIR, jumpState, baseState, basePlayer, groundY, List.find?]
  · rw [hstep]
    simp only [Option.map_some']
    rw [h3]
    norm_num [resolveCollisions, physIntegrate, landable, clamp, JUMP_BUFFER,
      GRAVITY, MOVE_AIR, jumpState, baseState, basePlayer, groundY, List.find?]

/-- C8 (amended): for an airborne, non-jumping runner (no buffered press,
jump key held so the variable-jump cut does not apply) with `vy = -380`,
one running tick at `dt = 1/60` changes the vertical velocity by gravity
alone: `vy' = -380 + 1100 * (1/60) = -1085/3 ≈ -361.67`.  (The tick cannot
land: the post-gravity `vy` is still negative, and landing requires
non-negative vertical velocity.) -/
theorem c8_gravity_tick (W H : ℚ) (env : Env) (inp : Input) (nowMs dt : ℚ)
    (st st1 : GameState)
    (hpg : postGen W env ((nowMs - st.startedAt) / 1000) st = some st1)
    (hr : inp.pressed.contains "r" = false)
    (hs : st1.started = true) (hgo : st1.gameOver = false)
    (hdt : dt = 1/60)
    (hvy : st1.player.vy = -380)
    (hheld : jumpHeld inp = true)
    (hnp1 : inp.pressed.contains " " = false)
    (hnp2 : inp.pressed.contains "arrowup" = false)
    (hbuf : st1.player.jumpBuffer ≤ 0) :
    ((step W H env inp nowMs dt st).map fun s => s.player.vy) =
      some (-380 + 1100 * (1/60)) := by
  rw [step_run W H env inp nowMs dt st st1 hpg hr hs hgo]
  simp only [Option.map_some']
  have hvy1 : (physIntegrate inp dt st1.player).vy = -380 + 1100 * dt := by
    rw [show (physIntegrate inp dt st1.player).vy = st1.player.vy + GRAVITY * dt from rfl,
      hvy]
    norm_num [GRAVITY]
  have hvyneg : (physIntegrate inp dt st1.player).vy < 0 := by
    rw [hvy1, hdt]; norm_num
  have hjp : (physIntegrate inp dt st1.player).jumpBuffer =
      st1.player.jumpBuffer - dt := by
    unfold physIntegrate
    dsimp only
    rw [hnp1, hnp2]
    simp
  have hfind : ∀ l : List Seg,
      l.find? (landable ((physIntegrate inp dt st1.player).x + st1.camX)
        (physIntegrate inp dt st1.player).w
        ((physIntegrate inp dt st1.player).y -
            (physIntegrate inp dt st1.player).vy * dt +
          (physIntegrate inp dt st1.player).h)
        (physIntegrate inp dt st1.player).vy
        ((physIntegrate inp dt st1.player).y +
          (physIntegrate inp dt st1.player).h)) = none := by
    intro l
    rw [List.find?_eq_none]
    intro s _
    intro hcontra
    unfold landable at hcontra
    simp only [Bool.and_eq_true, decide_eq_true_eq] at hcontra
    exact absurd hcontra.1.1.2 hvyneg.not_le
  have hres : resolveCollisions st1.ground st1.platforms st1.camX dt
      (physIntegrate inp dt st1.player) =
      { physIntegrate inp dt st1.player with onGround := false } := by
    unfold resolveCollisions
    dsimp only
    rw [hfind st1.ground, hfind st1.platforms]
  have hnb : ¬(0 < st1.player.jumpBuffer - dt) := by
    rw [hdt]; linarith
  dsimp only [runBody, preCombat, prePickup]
  simp only [combat_p_vy, updateGhost_player, expiry_p_vy, pickup_p_vy, attackDir_p_vy]
  rw [hres]
  simp [jumpResolve, jumpCutPhase, hjp, hnb, hheld, hvy1]
  rw [hdt]
  norm_num

/-- C8 counterexample: on the spec's own scenario (airborne, `vy = -380`,
gravity `1100`, `dt = 1/60`) the tick yields `vy = -1085/3 = -361.666…`,
which is more than `0.3` away from the claimed `≈ -361.33`: the claim's
quoted decimal does not match its own formula `-380 + 1100/60`. -/
theorem c8_decimal_counterexample :
    ((step 100 100 baseEnv ⟨[" "], []⟩ 1000 (1/60) airborneState).map
      fun s => s.player.vy) = some (-1085/3) ∧
    (3/10 : ℚ) < |(-1085/3 : ℚ) - (-36133/100)| := by
  constructor
  · rw [step_run 100 100 baseEnv ⟨[" "], []⟩ 1000 (1/60) airborneState airborneState
      (postGen_fixed _ _ rfl rfl rfl (by norm_num [airborneState, baseState])) rfl rfl rfl]
    simp only [Option.map_some']
    dsimp only [runBody, preCombat, prePickup]
    simp
    norm_num [resolveCollisions, physIntegrate, landable, jumpResolve, jumpCutPhase,
      jumpHeld, clamp, JUMP_V, JUMP_BUFFER, JUMP_CUT, GRAVITY, MOVE_AIR, MOVE_GROUND,
      airborneState, baseState, basePlayer, groundY, List.find?]
  · have h : (-1085/3 : ℚ) - (-36133/100) = -101/300 := by norm_num
    rw [h, abs_of_neg (by norm_num)]
    norm_num

/-- Witness for `c8_gravity_tick` on the concrete scenario-B state. -/
theorem c8_gravity_tick_witness :
    airborneState.player.vy = -380 ∧ jumpHeld ⟨[" "], []⟩ = true ∧
    airborneState.player.jumpBuffer ≤ 0 ∧
    ((step 100 100 baseEnv ⟨[" "], []⟩ 1000 (1/60) airborneState).map
      fun s => s.player.vy) = some (-380 + 1100 * (1/60)) := by
  refine ⟨rfl, rfl, by norm_num [airborneState, baseState, basePlayer], ?_⟩
  exact c8_gravity_tick 100 100 baseEnv ⟨[" "], []⟩ 1000 (1/60) airborneState airborneState
    (postGen_fixed _ _ rfl rfl rfl (by norm_num [airborneState, baseState]))
    rfl rfl rfl rfl rfl rfl rfl rfl
    (by norm_num [airborneState, baseState, basePlayer])

/-- C9: the runner's horizontal position stays inside the fixed on-screen
lane `[30, 175]`: every running tick body clamps it there outright (no
later phase of the tick moves `x`), and a full `step` on any lifecycle
path preserves the band (title and over ticks leave `x` unchanged, a
restart resets it to `70`). -/
theorem c9_lane_clamp :
    (∀ (H : ℚ) (env : Env) (inp : Input) (nowMs dt t : ℚ) (s : GameState),
      30 ≤ (runBody H env inp nowMs dt t s).player.x ∧
        (runBody H env inp nowMs dt t s).player.x ≤ 175) ∧
    (∀ (W H : ℚ) (env : Env) (inp : Input) (nowMs dt : ℚ) (st st' : GameState),
      step W H env inp nowMs dt st = some st' →
      30 ≤ st.player.x → st.player.x ≤ 175 →
      30 ≤ st'.player.x ∧ st'.player.x ≤ 175) := by
  have key : ∀ (H : ℚ) (env : Env) (inp : Input) (nowMs dt t : ℚ) (s : GameState),
      30 ≤ (runBody H env inp nowMs dt t s).player.x ∧
        (runBody H env inp nowMs dt t s).player.x ≤ 175 := by
    intro H env inp nowMs dt t s
    have hx : (runBody H env inp nowMs dt t s).player.x =
        clamp (s.player.x +
          (physIntegrate inp dt s.player).vx * dt) 30 175 := by
      dsimp only [runBody, preCombat, prePickup]
      simp
      rfl
    rw [hx]
    unfold clamp
    exact ⟨le_max_left _ _, max_le (by norm_num) (min_le_left _ _)⟩
  refine ⟨key, ?_⟩
  intro W H env inp nowMs dt st st' h hlo hhi
  obtain ⟨st1, hpg⟩ := step_some_postGen W H env inp nowMs dt st st' h
  have hpl : st1.player = st.player := (postGen_frame _ _ _ _ _ hpg).1
  unfold step at h
  dsimp only at h
  rw [hpg] at h
  dsimp only at h
  have hrst : (restart env nowMs st1).player.x = 70 := rfl
  by_cases hr : inp.pressed.contains "r" = true
  · rw [if_pos hr] at h
    have hs1 : (restart env nowMs st1).started = false := rfl
    have hg1 : (restart env nowMs st1).gameOver = false := rfl
    rw [hs1, hg1] at h
    simp only [Bool.not_eq_true, Bool.false_eq_true, not_false_eq_true, and_self,
      if_true, reduceIte] at h
    by_cases hsp : startPressed inp = true
    · rw [if_pos hsp] at h
      obtain rfl : _ = st' := by simpa using h
      exact key H env inp nowMs dt _ _
    · rw [if_neg hsp] at h
      obtain rfl : restart env nowMs st1 = st' := by simpa using h
      rw [hrst]
      norm_num
  · rw [if_neg hr] at h
    by_cases hst : (¬st1.started = true ∧ ¬st1.gameOver = true)
    · rw [if_pos hst] at h
      by_cases hsp : startPressed inp = true
      · rw [if_pos hsp] at h
        obtain rfl : _ = st' := by simpa using h
        exact key H env inp nowMs dt _ _
      · rw [if_neg hsp] at h
        obtain rfl : st1 = st' := by simpa using h
        rw [hpl]
        exact ⟨hlo, hhi⟩
    · rw [if_neg hst] at h
      by_cases hgo : st1.gameOver = true
      · rw [if_pos hgo] at h
        obtain rfl : st1 = st' := by simpa using h
        rw [hpl]
        exact ⟨hlo, hhi⟩
      · rw [if_neg hgo] at h
        obtain rfl : _ = st' := by simpa using h
        exact key H env inp nowMs dt _ _

/-- Witness for `c9_lane_clamp` on a concrete running tick. -/
theorem c9_lane_clamp_witness :
    (step 100 100 baseEnv ⟨[], []⟩ 1000 (1/60) baseState =
      some (runBody 100 baseEnv ⟨[], []⟩ 1000 (1/60)
        ((1000 - baseState.startedAt) / 1000) baseState)) ∧
    30 ≤ baseState.player.x ∧ baseState.player.x ≤ 175 ∧
    (30 ≤ (runBody 100 baseEnv ⟨[], []⟩ 1000 (1/60)
        ((1000 - baseState.startedAt) / 1000) baseState).player.x ∧
      (runBody 100 baseEnv ⟨[], []⟩ 1000 (1/60)
        ((1000 - baseState.startedAt) / 1000) baseState).player.x ≤ 175) := by
  have hstep := step_run 100 100 baseEnv ⟨[], []⟩ 1000 (1/60) baseState baseState
    (postGen_fixed _ _ rfl rfl rfl (by norm_num [baseState])) rfl rfl rfl
  refine ⟨hstep, by norm_num [baseState, basePlayer], by norm_num [baseState, basePlayer], ?_⟩
  have h := c9_lane_clamp.2 100 100 baseEnv ⟨[], []⟩ 1000 (1/60) baseState _ hstep
    (by norm_num [baseState, basePlayer]) (by norm_num [baseState, basePlayer])
  exact h

/-- C10: the 1%-probability rainbow roll is not cosmetic: `rollPlayerStyle`
sets `power = 1.25` exactly when the roll is below `1/100` (else `1.0`);
the per-tick horizontal speed clamp is `(sprint ? 220 : 180) * power` (so
the cap scales with `power`, and the final `vx` of a running tick is the
clamped one — no later phase touches `vx`); a firing jump launches at
`-(JUMP_V * power)`; and the rainbow power is exactly `5/4` of any
non-rainbow power. -/
theorem c10_rainbow_power :
    (∀ (r : ℚ) (p : Player),
      (rollPlayerStyle r p).rainbow = decide (r < 1/100) ∧
      (rollPlayerStyle r p).power = if r < 1/100 then 5/4 else 1) ∧
    (∀ (inp : Input) (dt : ℚ) (p : Player), 0 ≤ p.power →
      -(((if inp.keys.contains "shift" then (220 : ℚ) else 180) * p.power) * (9/10)) ≤
          (physIntegrate inp dt p).vx ∧
        (physIntegrate inp dt p).vx ≤
          (if inp.keys.contains "shift" then (220 : ℚ) else 180) * p.power) ∧
    (∀ (H : ℚ) (env : Env) (inp : Input) (nowMs dt t : ℚ) (s : GameState),
      (runBody H env inp nowMs dt t s).player.vx =
        (physIntegrate inp dt s.player).vx) ∧
    (∀ p : Player, 0 < p.jumpBuffer → 0 < p.coyote →
      (jumpResolve p).vy = -(JUMP_V * p.power)) ∧
    (∀ (r r2 : ℚ) (p : Player), r < 1/100 → ¬(r2 < 1/100) →
      (rollPlayerStyle r p).power = (5/4) * (rollPlayerStyle r2 p).power) := by
  refine ⟨?_, ?_, ?_, ?_, ?_⟩
  · intro r p
    constructor
    · rfl
    · simp [rollPlayerStyle]
  · intro inp dt p hpow
    have hcap : 0 ≤ (if inp.keys.contains "shift" then (220 : ℚ) else 180) * p.power := by
      by_cases hs : inp.keys.contains "shift" = true
      · rw [if_pos hs]; exact mul_nonneg (by norm_num) hpow
      · rw [if_neg hs]; exact mul_nonneg (by norm_num) hpow
    obtain ⟨v, hv⟩ : ∃ v, (physIntegrate inp dt p).vx =
        clamp v (-(((if inp.keys.contains "shift" then (220 : ℚ) else 180) * p.power) *
          (9/10))) ((if inp.keys.contains "shift" then (220 : ℚ) else 180) * p.power) :=
      ⟨_, rfl⟩
    rw [hv]
    unfold clamp
    exact ⟨le_max_left _ _, max_le (by linarith) (min_le_left _ _)⟩
  · intro H env inp nowMs dt t s
    dsimp only [runBody, preCombat, prePickup]
    simp
  · intro p h1 h2
    unfold jumpResolve
    rw [if_pos ⟨h1, h2⟩]
  · intro r r2 p h1 h2
    simp only [rollPlayerStyle]
    rw [decide_eq_true h1, decide_eq_false h2]
    norm_num

/-- Witness for `c10_rainbow_power` at a winning and a losing style roll. -/
theorem c10_rainbow_power_witness :
    ((rollPlayerStyle (1/200) basePlayer).power =
      if (1/200 : ℚ) < 1/100 then 5/4 else 1) ∧
    (0 : ℚ) ≤ basePlayer.power ∧
    ((physIntegrate ⟨[], []⟩ (1/60) basePlayer).vx ≤
      (if (Input.mk [] []).keys.contains "shift" then (220 : ℚ) else 180) *
        basePlayer.power) ∧
    (0 : ℚ) < ({ basePlayer with jumpBuffer := 1, coyote := 1 } : Player).jumpBuffer ∧
    ((jumpResolve { basePlayer with jumpBuffer := 1, coyote := 1 }).vy =
      -(JUMP_V * ({ basePlayer with jumpBuffer := 1, coyote := 1 } : Player).power)) ∧
    ((rollPlayerStyle (1/200) basePlayer).power =
      (5/4) * (rollPlayerStyle (1/2) basePlayer).power) := by
  refine ⟨(c10_rainbow_power.1 (1/200) basePlayer).2,
    by norm_num [basePlayer],
    (c10_rainbow_power.2.1 ⟨[], []⟩ (1/60) basePlayer (by norm_num [basePlayer])).2,
    by norm_num [basePlayer],
    c10_rainbow_power.2.2.2.1 _ (by norm_num [basePlayer]) (by norm_num [basePlayer]),
    c10_rainbow_power.2.2.2.2 (1/200) (1/2) basePlayer (by norm_num) (by norm_num)⟩

/-- C3: both terminal conditions go through the single transition function
`triggerGameOver`, which is idempotent (on an already-over session it is
the identity, so the reason set first is kept); a running tick whose
pursuer box overlaps the runner box (as they stand at the catch test,
after this tick's ghost update) ends in the over state; a running tick
whose runner, after this tick's integration and collision pass, sits past
the void threshold `H + 60` also ends in the over state, with reason
"You fell!"; and a tick taken in the over state without a restart press
returns the same over state — same flag, same reason, untouched entities
— so the session stays over under any further non-restart input. -/
theorem c3_game_over_transitions :
    (∀ (reason : String) (nowMs : ℚ) (st : GameState), st.gameOver = true →
      triggerGameOver reason nowMs st = st) ∧
    (∀ (W H : ℚ) (env : Env) (inp : Input) (nowMs dt : ℚ) (st st1 : GameState),
      postGen W env ((nowMs - st.startedAt) / 1000) st = some st1 →
      inp.pressed.contains "r" = false →
      st1.started = true → st1.gameOver = false →
      aabb (playerBoxOf (preCombat H env inp nowMs dt
          ((nowMs - st.startedAt) / 1000) st1).player)
        (ghostBoxOf (preCombat H env inp nowMs dt
          ((nowMs - st.startedAt) / 1000) st1).ghost) →
      ((step W H env inp nowMs dt st).map fun s => s.gameOver) = some true) ∧
    (∀ (W H : ℚ) (env : Env) (inp : Input) (nowMs dt : ℚ) (st st1 : GameState),
      postGen W env ((nowMs - st.startedAt) / 1000) st = some st1 →
      inp.pressed.contains "r" = false →
      st1.started = true → st1.gameOver = false →
      (resolveCollisions st1.ground st1.platforms st1.camX dt
        (physIntegrate inp dt st1.player)).y > H + 60 →
      ((step W H env inp nowMs dt st).map fun s => s.gameOver) = some true ∧
      ((step W H env inp nowMs dt st).map fun s => s.gameOverReason) =
        some "You fell!") ∧
    (∀ (W H : ℚ) (env : Env) (inp : Input) (nowMs dt : ℚ) (st st' : GameState),
      step W H env inp nowMs dt st = some st' →
      st.gameOver = true → inp.pressed.contains "r" = false →
      st'.gameOver = true ∧ st'.gameOverReason = st.gameOverReason ∧
      st'.player = st.player ∧ st'.ghost = st.ghost) := by
  refine ⟨?_, ?_, ?_, ?_⟩
  · intro reason nowMs st h
    unfold triggerGameOver
    rw [if_pos h]
  · intro W H env inp nowMs dt st st1 hpg hr hs hgo hcatch
    rw [step_run W H env inp nowMs dt st st1 hpg hr hs hgo]
    simp only [Option.map_some']
    dsimp only [runBody]
    unfold combatAndCatch
    dsimp only
    have hpb : playerBoxOf (hitPhase nowMs
        (ghostBoxOf (preCombat H env inp nowMs dt ((nowMs - st.startedAt) / 1000) st1).ghost)
        (comboDecay nowMs
          (preCombat H env inp nowMs dt ((nowMs - st.startedAt) / 1000) st1))).player =
        playerBoxOf (preCombat H env inp nowMs dt
          ((nowMs - st.startedAt) / 1000) st1).player := by
      simp [playerBoxOf]
    rw [hpb, if_pos hcatch]
    exact congrArg some (triggerGameOver_over _ _ _)
  · intro W H env inp nowMs dt st st1 hpg hr hs hgo hfall
    rw [step_run W H env inp nowMs dt st st1 hpg hr hs hgo]
    simp only [Option.map_some']
    have hpy : ({ st1 with
        player := resolveCollisions st1.ground st1.platforms st1.camX dt
          (physIntegrate inp dt st1.player) } : GameState).player.y > H + 60 := hfall
    have hng : ({ st1 with
        player := resolveCollisions st1.ground st1.platforms st1.camX dt
          (physIntegrate inp dt st1.player) } : GameState).gameOver = false := hgo
    have hmid : (fallCheck H nowMs { st1 with
        player := resolveCollisions st1.ground st1.platforms st1.camX dt
          (physIntegrate inp dt st1.player) }).gameOver = true ∧
        (fallCheck H nowMs { st1 with
          player := resolveCollisions st1.ground st1.platforms st1.camX dt
            (physIntegrate inp dt st1.player) }).gameOverReason = "You fell!" := by
      unfold fallCheck
      rw [if_pos hpy]
      unfold triggerGameOver
      rw [if_neg (by rw [hng]; simp)]
      exact ⟨rfl, rfl⟩
    have hpre : (preCombat H env inp nowMs dt
        ((nowMs - st.startedAt) / 1000) st1).gameOver = true ∧
        (preCombat H env inp nowMs dt
          ((nowMs - st.startedAt) / 1000) st1).gameOverReason = "You fell!" := by
      dsimp only [preCombat, prePickup]
      exact ⟨by simp [hmid.1], by simp [hmid.2]⟩
    have hcombat : (combatAndCatch nowMs (preCombat H env inp nowMs dt
        ((nowMs - st.startedAt) / 1000) st1)).gameOver = true ∧
        (combatAndCatch nowMs (preCombat H env inp nowMs dt
          ((nowMs - st.startedAt) / 1000) st1)).gameOverReason = "You fell!" := by
      unfold combatAndCatch
      dsimp only
      have hh : (hitPhase nowMs
          (ghostBoxOf (preCombat H env inp nowMs dt
            ((nowMs - st.startedAt) / 1000) st1).ghost)
          (comboDecay nowMs (preCombat H env inp nowMs dt
            ((nowMs - st.startedAt) / 1000) st1))).gameOver = true := by
        simp [hpre.1]
      split
      · refine ⟨triggerGameOver_over _ _ _, ?_⟩
        unfold triggerGameOver
        rw [if_pos hh]
        simp [hpre.2]
      · exact ⟨hh, by simp [hpre.2]⟩
    dsimp only [runBody]
    exact ⟨congrArg some hcombat.1, congrArg some hcombat.2⟩
  · intro W H env inp nowMs dt st st' h hover hr
    obtain ⟨st1, hpg⟩ := step_some_postGen W H env inp nowMs dt st st' h
    obtain ⟨f1, f2, -, -, -, f6, f7, -, -, -⟩ := postGen_frame _ _ _ _ _ hpg
    have hgo1 : st1.gameOver = true := by rw [f6, hover]
    rw [step_frozen W H env inp nowMs dt st st1 hpg hr hgo1] at h
    obtain rfl : st1 = st' := by simpa using h
    exact ⟨hgo1, f7, f1, f2⟩

/-- Witness for `c3_game_over_transitions`: idempotence on an over state,
a catching tick on `catchState`, a falling tick on `fallState` (over with
reason "You fell!"), and a frozen over tick. -/
theorem c3_game_over_transitions_witness :
    frozenState.gameOver = true ∧
    triggerGameOver "again" 5 frozenState = frozenState ∧
    ((step 100 100 baseEnv ⟨[], []⟩ 1000 (1/60) catchState).map
      fun s => s.gameOver) = some true ∧
    ((step 100 100 baseEnv ⟨[], []⟩ 1000 (1/60) fallState).map
      fun s => s.gameOver) = some true ∧
    ((step 100 100 baseEnv ⟨[], []⟩ 1000 (1/60) fallState).map
      fun s => s.gameOverReason) = some "You fell!" ∧
    (frozenState.gameOver = true ∧
      frozenState.gameOverReason = frozenState.gameOverReason ∧
      frozenState.player = frozenState.player ∧
      frozenState.ghost = frozenState.ghost) := by
  have hfrozen : step 100 100 baseEnv ⟨[], []⟩ 1000 (1/60) frozenState =
      some frozenState :=
    step_frozen 100 100 baseEnv ⟨[], []⟩ 1000 (1/60) frozenState frozenState
      (postGen_fixed _ _ rfl rfl rfl (by norm_num [frozenState, baseState])) rfl rfl
  have hfally : (resolveCollisions fallState.ground fallState.platforms
      fallState.camX (1/60) (physIntegrate ⟨[], []⟩ (1/60) fallState.player)).y >
      (100 : ℚ) + 60 := by
    norm_num [resolveCollisions, landable, physIntegrate, clamp,
      GRAVITY, JUMP_BUFFER, MOVE_AIR, MOVE_GROUND, COYOTE_TIME,
      fallState, baseState, basePlayer, groundY, List.find?]
  have hfallleg := c3_game_over_transitions.2.2.1 100 100 baseEnv ⟨[], []⟩
    1000 (1/60) fallState fallState
    (postGen_fixed _ _ rfl rfl rfl (by norm_num [fallState, baseState]))
    rfl rfl rfl hfally
  refine ⟨rfl, c3_game_over_transitions.1 "again" 5 frozenState rfl, ?_,
    hfallleg.1, hfallleg.2, ?_⟩
  · refine c3_game_over_transitions.2.1 100 100 baseEnv ⟨[], []⟩ 1000 (1/60)
      catchState catchState
      (postGen_fixed _ _ rfl rfl rfl (by norm_num [catchState, baseState]))
      rfl rfl rfl ?_
    have hs1 : (("calm" : String) = "spawn") = False := eq_false (by decide)
    have hs2 : (("calm" : String) = "lunge") = False := eq_false (by decide)
    norm_num [hs1, hs2, preCombat, prePickup, physIntegrate, resolveCollisions, landable, fallCheck,
      triggerGameOver, jumpResolve, jumpCutPhase, jumpHeld, attackDirPhase,
      pickupPhase, expiryPhase, updateGhost, ghostCore, phaseOf, ghostChaseFactor,
      phaseChaseMult, lungeChance, lerp, clamp, aabb, playerBoxOf, ghostBoxOf,
      GRAVITY, JUMP_BUFFER, MOVE_AIR, MOVE_GROUND, COYOTE_TIME,
      catchState, baseState, basePlayer, baseGhost, baseEnv, groundY, List.find?]
  · exact c3_game_over_transitions.2.2.2 100 100 baseEnv ⟨[], []⟩ 1000 (1/60)
      frozenState frozenState hfrozen rfl rfl

/-- C4 (amended): a tick taken in the over state without a restart press
leaves the runner, the pursuer, the camera, the scroll speed and every
session counter untouched (terrain lookahead and the sword spawn timer,
which run before the game-over gate, may still modify the terrain lists
and the weapon pickup — see the counterexample); a restart press performs
the full reinitialization of `restart()`/`seedWorld()` — runner reset and
restyled, pursuer back to its spawn pose, world reseeded, counters
cleared, `best` kept — and returns the session to the title state
(`started = false`, `gameOver = false`), not directly to running. -/
theorem c4_over_freeze_restart :
    (∀ (W H : ℚ) (env : Env) (inp : Input) (nowMs dt : ℚ) (st st' : GameState),
      step W H env inp nowMs dt st = some st' →
      st.gameOver = true → inp.pressed.contains "r" = false →
      st'.player = st.player ∧ st'.ghost = st.ghost ∧ st'.camX = st.camX ∧
      st'.baseScroll = st.baseScroll ∧ st'.ghostsRepelled = st.ghostsRepelled ∧
      st'.best = st.best ∧ st'.startedAt = st.startedAt ∧
      st'.started = st.started ∧ st'.gameOver = true ∧
      st'.gameOverReason = st.gameOverReason) ∧
    (∀ (W H : ℚ) (env : Env) (inp : Input) (nowMs dt : ℚ) (st st1 st' : GameState),
      postGen W env ((nowMs - st.startedAt) / 1000) st = some st1 →
      step W H env inp nowMs dt st = some st' →
      inp.pressed.contains "r" = true → startPressed inp = false →
      st' = restart env nowMs st1 ∧
      st'.started = false ∧ st'.gameOver = false ∧ st'.camX = 0 ∧
      st'.baseScroll = 0 ∧ st'.ghostsRepelled = 0 ∧ st'.player.x = 70 ∧
      st'.player.y = 40 ∧ st'.player.vx = 0 ∧ st'.player.vy = 0 ∧
      st'.player.hasSword = false ∧ st'.player.combo = 0 ∧
      st'.ghost.x = -120 ∧ st'.ghost.state = "spawn" ∧
      st'.ground = [⟨-600, groundY, 2600, 40⟩] ∧
      st'.platforms = seedPlats env.seedChoices 160 10 ∧
      st'.sword = none ∧ st'.nextSwordSpawnAt = 3 ∧ st'.startedAt = nowMs ∧
      st'.best = st.best) := by
  constructor
  · intro W H env inp nowMs dt st st' h hover hr
    obtain ⟨st1, hpg⟩ := step_some_postGen W H env inp nowMs dt st st' h
    obtain ⟨f1, f2, f3, f4, f5, f6, f7, f8, f9, f10⟩ := postGen_frame _ _ _ _ _ hpg
    have hgo1 : st1.gameOver = true := by rw [f6, hover]
    rw [step_frozen W H env inp nowMs dt st st1 hpg hr hgo1] at h
    obtain rfl : st1 = st' := by simpa using h
    exact ⟨f1, f2, f3, f4, f10, f8, f9, f5, hgo1, f7⟩
  · intro W H env inp nowMs dt st st1 st' hpg h hr hsp
    rw [step_restart W H env inp nowMs dt st st1 hpg hr hsp] at h
    obtain rfl : restart env nowMs st1 = st' := by simpa using h
    have hbest : st1.best = st.best := (postGen_frame _ _ _ _ _ hpg).2.2.2.2.2.2.2.1
    exact ⟨rfl, rfl, rfl, rfl, rfl, rfl, rfl, rfl, rfl, rfl, rfl, rfl, rfl, rfl,
      rfl, rfl, rfl, rfl, rfl, hbest⟩

/-- C4 counterexample: in the over state, with no restart press, the
pre-gate sword spawn timer still runs: on `overState` (whose 20-second
timer has elapsed) the tick replaces the weapon pickup — `sword` goes from
`none` to a fresh active pickup — even though the session is over. -/
theorem c4_over_mutation_counterexample :
    overState.gameOver = true ∧
    ((⟨[], []⟩ : Input).pressed.contains "r" = false) ∧
    overState.sword = none ∧
    ((step 100 100 baseEnv ⟨[], []⟩ 1000 (1/60) overState).map fun s => s.sword) =
      some (some ⟨240, 118, 10, 12, true⟩) := by
  have hpg : postGen 100 baseEnv ((1000 - overState.startedAt) / 1000) overState =
      some { overState with
        sword := some ⟨240, 118, 10, 12, true⟩, nextSwordSpawnAt := 21 } := by
    norm_num [postGen, ensureGroundAhead, groundLoop, farInit, ensurePlatformsAhead,
      platLoop, platFarInit, maybeSpawnSword, overState, baseState, baseEnv, groundY]
  refine ⟨rfl, rfl, rfl, ?_⟩
  rw [step_frozen 100 100 baseEnv ⟨[], []⟩ 1000 (1/60) overState _ hpg rfl rfl]
  rfl

/-- Witness for `c4_over_freeze_restart`: a frozen over tick and a restart
tick on concrete states. -/
theorem c4_over_freeze_restart_witness :
    (frozenState.player = frozenState.player ∧ frozenState.gameOver = true) ∧
    ((restart baseEnv 1000 baseState).started = false ∧
      (restart baseEnv 1000 baseState).gameOver = false ∧
      (restart baseEnv 1000 baseState).camX = 0 ∧
      (restart baseEnv 1000 baseState).player.x = 70 ∧
      (restart baseEnv 1000 baseState).best = baseState.best) := by
  have hfrozen : step 100 100 baseEnv ⟨[], []⟩ 1000 (1/60) frozenState =
      some frozenState :=
    step_frozen 100 100 baseEnv ⟨[], []⟩ 1000 (1/60) frozenState frozenState
      (postGen_fixed _ _ rfl rfl rfl (by norm_num [frozenState, baseState])) rfl rfl
  have h1 := c4_over_freeze_restart.1 100 100 baseEnv ⟨[], []⟩ 1000 (1/60)
    frozenState frozenState hfrozen rfl rfl
  have hpg : postGen 100 baseEnv ((1000 - baseState.startedAt) / 1000) baseState =
      some baseState :=
    postGen_fixed _ _ rfl rfl rfl (by norm_num [baseState])
  have hrestart : step 100 100 baseEnv ⟨[], ["r"]⟩ 1000 (1/60) baseState =
      some (restart baseEnv 1000 baseState) :=
    step_restart 100 100 baseEnv ⟨[], ["r"]⟩ 1000 (1/60) baseState baseState hpg rfl rfl
  have h2 := c4_over_freeze_restart.2 100 100 baseEnv ⟨[], ["r"]⟩ 1000 (1/60)
    baseState baseState (restart baseEnv 1000 baseState) hpg hrestart rfl rfl
  exact ⟨⟨h1.1, h1.2.2.2.2.2.2.2.2.1⟩,
    h2.2.1, h2.2.2.1, h2.2.2.2.1, h2.2.2.2.2.2.2.1, h2.2.2.2.2.2.2.2.2.2.2.2.2.2.2.2.2.2.2.2⟩

/-- C5: in a running tick whose active pickup box overlaps the runner box
(as both stand at the pickup phase, after movement), the tick ends with
the pickup deactivated, `hasSword = true`, and an expiry timestamp
exactly the configured duration (9500ms rainbow / 6500ms normal) past the
current time — hence strictly in the future.  No hypothesis on the old
`swordUntil` is needed: even a stale expiry timestamp from a previous
weapon cannot fire on the pickup tick, because the expiry check runs
after pickup and sees the fresh timestamp — the pickup wins. -/
theorem c5_pickup_priority (W H : ℚ) (env : Env) (inp : Input) (nowMs dt : ℚ)
    (st st1 : GameState) (sw : Sword)
    (hpg : postGen W env ((nowMs - st.startedAt) / 1000) st = some st1)
    (hr : inp.pressed.contains "r" = false)
    (hs : st1.started = true) (hgo : st1.gameOver = false)
    (hsw : (prePickup H inp nowMs dt st1).sword = some sw)
    (hact : sw.active = true)
    (hov : aabb
      ⟨(prePickup H inp nowMs dt st1).player.x, (prePickup H inp nowMs dt st1).player.y,
        (prePickup H inp nowMs dt st1).player.w, (prePickup H inp nowMs dt st1).player.h⟩
      ⟨sw.x - (prePickup H inp nowMs dt st1).camX, sw.y, sw.w, sw.h⟩) :
    ((step W H env inp nowMs dt st).map fun s => s.player.hasSword) = some true ∧
    ((step W H env inp nowMs dt st).map fun s => s.player.swordUntil) =
      some (nowMs +
        (if (prePickup H inp nowMs dt st1).player.rainbow then 9500 else 6500)) ∧
    ((step W H env inp nowMs dt st).map fun s => s.sword) =
      some (some { sw with active := false }) ∧
    nowMs < nowMs +
      (if (prePickup H inp nowMs dt st1).player.rainbow then 9500 else 6500) := by
  have hpick : pickupPhase nowMs (prePickup H inp nowMs dt st1) =
      { prePickup H inp nowMs dt st1 with
        sword := some { sw with active := false },
        player := { (prePickup H inp nowMs dt st1).player with
          hasSword := true,
          swordUntil := nowMs +
            (if (prePickup H inp nowMs dt st1).player.rainbow then 9500 else 6500),
          combo := 0, comboUntil := 0 } } := by
    unfold pickupPhase
    rw [hsw]
    dsimp only
    rw [hact]
    rw [if_pos rfl, if_pos hov]
  have hexp : expiryPhase nowMs (pickupPhase nowMs (prePickup H inp nowMs dt st1)) =
      pickupPhase nowMs (prePickup H inp nowMs dt st1) := by
    rw [hpick]
    unfold expiryPhase
    rw [if_neg]
    rintro ⟨-, hlt⟩
    dsimp at hlt
    split at hlt <;> linarith
  rw [step_run W H env inp nowMs dt st st1 hpg hr hs hgo]
  simp only [Option.map_some']
  refine ⟨?_, ?_, ?_, ?_⟩
  · dsimp only [runBody, preCombat]
    rw [hexp, hpick]
    simp
  · dsimp only [runBody, preCombat]
    rw [hexp, hpick]
    simp
  · dsimp only [runBody, preCombat]
    rw [hexp, hpick]
    simp
  · split <;> linarith

/-- Witness for `c5_pickup_priority` on `pickupState`: the runner starts
with no sword and a stale `swordUntil = 0`, overlaps the fresh pickup,
and ends the tick holding the sword with expiry `1000 + 6500`. -/
theorem c5_pickup_priority_witness :
    pickupState.player.hasSword = false ∧
    pickupState.player.swordUntil < 1000 ∧
    (prePickup 100 ⟨[], []⟩ 1000 (1/60) pickupState).player.rainbow = false ∧
    ((step 100 100 baseEnv ⟨[], []⟩ 1000 (1/60) pickupState).map
      fun s => s.player.hasSword) = some true ∧
    ((step 100 100 baseEnv ⟨[], []⟩ 1000 (1/60) pickupState).map
      fun s => s.player.swordUntil) =
      some (1000 + (if (prePickup 100 ⟨[], []⟩ 1000 (1/60) pickupState).player.rainbow
        then 9500 else 6500)) ∧
    ((step 100 100 baseEnv ⟨[], []⟩ 1000 (1/60) pickupState).map
      fun s => s.sword) = some (some ⟨75, 45, 10, 12, false⟩) ∧
    (1000 : ℚ) < 1000 +
      (if (prePickup 100 ⟨[], []⟩ 1000 (1/60) pickupState).player.rainbow
        then 9500 else 6500) := by
  have hswd : (prePickup 100 ⟨[], []⟩ 1000 (1/60) pickupState).sword =
      some ⟨75, 45, 10, 12, true⟩ := by
    dsimp only [prePickup]
    simp [pickupState]
  have hrb : (prePickup 100 ⟨[], []⟩ 1000 (1/60) pickupState).player.rainbow = false := by
    dsimp only [prePickup]
    simp [pickupState, baseState, basePlayer]
  have hov : aabb
      ⟨(prePickup 100 ⟨[], []⟩ 1000 (1/60) pickupState).player.x,
        (prePickup 100 ⟨[], []⟩ 1000 (1/60) pickupState).player.y,
        (prePickup 100 ⟨[], []⟩ 1000 (1/60) pickupState).player.w,
        (prePickup 100 ⟨[], []⟩ 1000 (1/60) pickupState).player.h⟩
      ⟨(75 : ℚ) - (prePickup 100 ⟨[], []⟩ 1000 (1/60) pickupState).camX, 45, 10, 12⟩ := by
    norm_num [prePickup, attackDirPhase, fallCheck, triggerGameOver, jumpResolve,
      jumpCutPhase, jumpHeld, resolveCollisions, landable, physIntegrate, clamp, aabb,
      GRAVITY, JUMP_BUFFER, MOVE_AIR, MOVE_GROUND, COYOTE_TIME,
      pickupState, baseState, basePlayer, baseGhost, groundY, List.find?]
  obtain ⟨h1, h2, h3, h4⟩ := c5_pickup_priority 100 100 baseEnv ⟨[], []⟩ 1000 (1/60)
    pickupState pickupState ⟨75, 45, 10, 12, true⟩
    (postGen_fixed _ _ rfl rfl rfl (by norm_num [pickupState, baseState]))
    rfl rfl rfl hswd rfl hov
  exact ⟨rfl, by norm_num [pickupState, baseState, basePlayer], hrb, h1, h2, h3, h4⟩

/-- C6 (amended): across one running tick the combo counter changes only as
follows, in order: the sword pickup may reset it to zero, the sword
expiry may reset it to zero, the decay zeroes it exactly when it is
positive and its window has lapsed (`comboUntil < now`), and a landed hit
moves it to `clamp(combo+1, 1, 12)`; no other phase touches it.  In
particular it is monotonic non-decreasing within an open combo window
(combo ≤ 11) as long as neither a pickup nor an expiry fires — but those
two events *do* reset it even while the window is open (see the
counterexample). -/
theorem c6_combo_behaviour (W H : ℚ) (env : Env) (inp : Input) (nowMs dt : ℚ)
    (st st1 : GameState)
    (hpg : postGen W env ((nowMs - st.startedAt) / 1000) st = some st1)
    (hr : inp.pressed.contains "r" = false)
    (hs : st1.started = true) (hgo : st1.gameOver = false) :
    (let a := prePickup H inp nowMs dt st1
     let b := pickupPhase nowMs a
     let c := expiryPhase nowMs b
     let d := updateGhost env nowMs dt ((nowMs - st.startedAt) / 1000) c
     let e := comboDecay nowMs d
     let f := hitPhase nowMs (ghostBoxOf d.ghost) e
     ((step W H env inp nowMs dt st).map fun s => s.player.combo) =
        some f.player.combo ∧
     a.player.combo = st1.player.combo ∧
     (b.player.combo = a.player.combo ∨ b.player.combo = 0) ∧
     (c.player.combo = b.player.combo ∨ c.player.combo = 0) ∧
     d.player.combo = c.player.combo ∧
     e.player.combo = (if 0 < d.player.combo ∧ d.player.comboUntil < nowMs then 0
                       else d.player.combo) ∧
     (f.player.combo = e.player.combo ∨
       f.player.combo = clamp (e.player.combo + 1) 1 12) ∧
     (¬(d.player.comboUntil < nowMs) → b.player.combo = a.player.combo →
       c.player.combo = b.player.combo → st1.player.combo ≤ 11 →
       st1.player.combo ≤ f.player.combo)) := by
  dsimp only
  have ha : (prePickup H inp nowMs dt st1).player.combo = st1.player.combo := by
    dsimp only [prePickup]
    simp
  have hb : ∀ s : GameState, (pickupPhase nowMs s).player.combo = s.player.combo ∨
      (pickupPhase nowMs s).player.combo = 0 := by
    intro s
    unfold pickupPhase
    (repeat' split) <;> first | exact Or.inl rfl | exact Or.inr rfl
  have hc : ∀ s : GameState, (expiryPhase nowMs s).player.combo = s.player.combo ∨
      (expiryPhase nowMs s).player.combo = 0 := by
    intro s
    unfold expiryPhase
    split <;> first | exact Or.inl rfl | exact Or.inr rfl
  have hf : ∀ (g : Box) (s : GameState),
      (hitPhase nowMs g s).player.combo = s.player.combo ∨
      (hitPhase nowMs g s).player.combo = clamp (s.player.combo + 1) 1 12 := by
    intro g s
    unfold hitPhase
    (repeat' split) <;> first | exact Or.inl rfl | exact Or.inr rfl
  refine ⟨?_, ha, hb _, hc _, rfl, ?_, hf _ _, ?_⟩
  · rw [step_run W H env inp nowMs dt st st1 hpg hr hs hgo]
    simp only [Option.map_some']
    dsimp only [runBody, preCombat]
    unfold combatAndCatch
    dsimp only
    split <;> simp
  · rw [comboDecay_eq]
  · intro hwin hbb hcc hle
    have hdc : (updateGhost env nowMs dt ((nowMs - st.startedAt) / 1000)
        (expiryPhase nowMs (pickupPhase nowMs
          (prePickup H inp nowMs dt st1)))).player.combo = st1.player.combo := by
      rw [show (updateGhost env nowMs dt ((nowMs - st.startedAt) / 1000)
          (expiryPhase nowMs (pickupPhase nowMs
            (prePickup H inp nowMs dt st1)))).player.combo =
          (expiryPhase nowMs (pickupPhase nowMs
            (prePickup H inp nowMs dt st1))).player.combo from rfl, hcc, hbb, ha]
    have he : (comboDecay nowMs (updateGhost env nowMs dt ((nowMs - st.startedAt) / 1000)
        (expiryPhase nowMs (pickupPhase nowMs
          (prePickup H inp nowMs dt st1))))).player.combo = st1.player.combo := by
      rw [comboDecay_eq]
      dsimp only
      rw [if_neg]
      · exact hdc
      · rintro ⟨-, hlt⟩
        rw [show (updateGhost env nowMs dt ((nowMs - st.startedAt) / 1000)
            (expiryPhase nowMs (pickupPhase nowMs
              (prePickup H inp nowMs dt st1)))).player.comboUntil =
            (updateGhost env nowMs dt ((nowMs - st.startedAt) / 1000)
              (expiryPhase nowMs (pickupPhase nowMs
                (prePickup H inp nowMs dt st1)))).player.comboUntil from rfl] at hlt
        exact hwin hlt
    rcases hf (ghostBoxOf (updateGhost env nowMs dt ((nowMs - st.startedAt) / 1000)
        (expiryPhase nowMs (pickupPhase nowMs
          (prePickup H inp nowMs dt st1)))).ghost)
        (comboDecay nowMs (updateGhost env nowMs dt ((nowMs - st.startedAt) / 1000)
          (expiryPhase nowMs (pickupPhase nowMs
            (prePickup H inp nowMs dt st1))))) with h | h
    · rw [h, he]
    · rw [h, he]
      unfold clamp
      have h12 : st1.player.combo + 1 ≤ 12 := by linarith
      rw [min_eq_right h12]
      exact le_trans (by linarith) (le_max_right 1 (st1.player.combo + 1))

/-- C6 counterexample: on `comboState` the combo is `3` and its window is
still open (`now = 1000 < comboUntil = 3000`), no attack window is active
so no hit can land, yet the tick ends with combo `0`: the sword expiry
(`swordUntil = 500 < 1000`) reset the combo inside the open window, an
event the claim does not allow. -/
theorem c6_reset_in_open_window_counterexample :
    comboState.player.combo = 3 ∧
    (1000 : ℚ) < comboState.player.comboUntil ∧
    comboState.player.attackUntil < 1000 ∧
    ((step 100 100 baseEnv ⟨[], []⟩ 1000 (1/60) comboState).map
      fun s => s.player.combo) = some 0 := by
  refine ⟨rfl, by norm_num [comboState, baseState, basePlayer],
    by norm_num [comboState, baseState, basePlayer], ?_⟩
  rw [step_run 100 100 baseEnv ⟨[], []⟩ 1000 (1/60) comboState comboState
    (postGen_fixed _ _ rfl rfl rfl (by norm_num [comboState, baseState])) rfl rfl rfl]
  simp only [Option.map_some']
  have hs1 : (("calm" : String) = "spawn") = False := eq_false (by decide)
  have hs2 : (("calm" : String) = "lunge") = False := eq_false (by decide)
  norm_num [runBody, preCombat, prePickup, combatAndCatch, comboDecay, hitPhase,
    hitBoxFor, updateGhost, ghostCore, expiryPhase, pickupPhase, attackDirPhase,
    jumpResolve, jumpCutPhase, jumpHeld, fallCheck, triggerGameOver, resolveCollisions,
    landable, physIntegrate, phaseOf, ghostChaseFactor, phaseChaseMult, lungeChance,
    lerp, clamp, aabb, playerBoxOf, ghostBoxOf, GRAVITY, JUMP_BUFFER, MOVE_AIR,
    MOVE_GROUND, COYOTE_TIME, JUMP_V, JUMP_CUT, hs1, hs2, comboState, baseState,
    basePlayer, baseGhost, baseEnv, groundY, List.find?]

/-- Witness for `c6_combo_behaviour` on the concrete `comboState` tick. -/
theorem c6_combo_behaviour_witness :
    comboState.started = true ∧ comboState.gameOver = false ∧
    ((step 100 100 baseEnv ⟨[], []⟩ 1000 (1/60) comboState).map
      fun s => s.player.combo) =
      some (hitPhase 1000 (ghostBoxOf (updateGhost baseEnv 1000 (1/60)
          ((1000 - comboState.startedAt) / 1000) (expiryPhase 1000 (pickupPhase 1000
          (prePickup 100 ⟨[], []⟩ 1000 (1/60) comboState)))).ghost)
        (comboDecay 1000 (updateGhost baseEnv 1000 (1/60)
          ((1000 - comboState.startedAt) / 1000) (expiryPhase 1000 (pickupPhase 1000
          (prePickup 100 ⟨[], []⟩ 1000 (1/60) comboState)))))).player.combo := by
  refine ⟨rfl, rfl, ?_⟩
  exact (c6_combo_behaviour 100 100 baseEnv ⟨[], []⟩ 1000 (1/60) comboState comboState
    (postGen_fixed _ _ rfl rfl rfl (by norm_num [comboState, baseState])) rfl rfl rfl).1

/-- C7 (amended): a hit landed during an active attack window always
displaces the pursuer in the negative-x direction (leftward) — regardless
of the latched attack direction, which shapes only the hit volume — by
`150 + combo*14 (+40 rainbow)` where `combo` is the freshly incremented
capped combo, and arms the pushed-back timer until
`now + 750 + combo*30`; the displacement is strictly leftward, the repel
counter increments, and the combo window re-arms to `now + 1200`. -/
theorem c7_knockback_leftward (W H : ℚ) (env : Env) (inp : Input) (nowMs dt : ℚ)
    (st st1 : GameState) (hb : Box)
    (hpg : postGen W env ((nowMs - st.startedAt) / 1000) st = some st1)
    (hr : inp.pressed.contains "r" = false)
    (hs : st1.started = true) (hgo : st1.gameOver = false)
    (hwin : nowMs < (comboDecay nowMs (preCombat H env inp nowMs dt
      ((nowMs - st.startedAt) / 1000) st1)).player.attackUntil)
    (hbox : hitBoxFor (comboDecay nowMs (preCombat H env inp nowMs dt
      ((nowMs - st.startedAt) / 1000) st1)).player = some hb)
    (hov : aabb hb (ghostBoxOf (preCombat H env inp nowMs dt
      ((nowMs - st.startedAt) / 1000) st1).ghost)) :
    (let d := preCombat H env inp nowMs dt ((nowMs - st.startedAt) / 1000) st1
     let e := comboDecay nowMs d
     let combo2 := clamp (e.player.combo + 1) 1 12
     let push := 150 + combo2 * 14 + (if e.player.rainbow then 40 else 0)
     ((step W H env inp nowMs dt st).map fun s => s.ghost.x) =
        some (d.ghost.x - push) ∧
     ((step W H env inp nowMs dt st).map fun s => s.ghost.pushedBackUntil) =
        some (nowMs + (750 + combo2 * 30)) ∧
     ((step W H env inp nowMs dt st).map fun s => s.player.combo) = some combo2 ∧
     ((step W H env inp nowMs dt st).map fun s => s.player.comboUntil) =
        some (nowMs + 1200) ∧
     ((step W H env inp nowMs dt st).map fun s => s.ghostsRepelled) =
        some (d.ghostsRepelled + 1) ∧
     d.ghost.x - push < d.ghost.x) := by
  dsimp only
  have hhit : hitPhase nowMs (ghostBoxOf (preCombat H env inp nowMs dt
      ((nowMs - st.startedAt) / 1000) st1).ghost)
      (comboDecay nowMs (preCombat H env inp nowMs dt
        ((nowMs - st.startedAt) / 1000) st1)) =
      (let e := comboDecay nowMs (preCombat H env inp nowMs dt
        ((nowMs - st.startedAt) / 1000) st1)
       let combo2 := clamp (e.player.combo + 1) 1 12
       { e with
         ghostsRepelled := e.ghostsRepelled + 1,
         player := { e.player with combo := combo2, comboUntil := nowMs + 1200 },
         ghost := { e.ghost with
           x := e.ghost.x - (150 + combo2 * 14 + (if e.player.rainbow then 40 else 0)),
           pushedBackUntil := nowMs + (750 + combo2 * 30) } }) := by
    unfold hitPhase
    rw [if_pos hwin, hbox]
    dsimp only
    rw [if_pos hov]
  have hpos : (1 : ℚ) ≤ clamp ((comboDecay nowMs (preCombat H env inp nowMs dt
      ((nowMs - st.startedAt) / 1000) st1)).player.combo + 1) 1 12 :=
    le_max_left _ _
  have hpush : 0 < 150 + clamp ((comboDecay nowMs (preCombat H env inp nowMs dt
      ((nowMs - st.startedAt) / 1000) st1)).player.combo + 1) 1 12 * 14 +
      (if (comboDecay nowMs (preCombat H env inp nowMs dt
        ((nowMs - st.startedAt) / 1000) st1)).player.rainbow then (40 : ℚ) else 0) := by
    have h14 : (14 : ℚ) ≤ clamp ((comboDecay nowMs (preCombat H env inp nowMs dt
        ((nowMs - st.startedAt) / 1000) st1)).player.combo + 1) 1 12 * 14 := by
      nlinarith
    split <;> linarith
  rw [step_run W H env inp nowMs dt st st1 hpg hr hs hgo]
  simp only [Option.map_some']
  refine ⟨?_, ?_, ?_, ?_, ?_, by linarith⟩ <;>
    · dsimp only [runBody]
      unfold combatAndCatch
      dsimp only
      rw [hhit]
      dsimp only
      split <;> simp

/-- C7 counterexample: on `hitState` the latched attack direction is
`"right"` (+x) for the whole tick, yet the landed hit moves the pursuer
from `x = 85` to `x = -2363/30 ≈ -78.8` — the knockback is applied
leftward (`ghost.x -= push`), not along the latched direction. -/
theorem c7_direction_counterexample :
    ((step 100 100 baseEnv ⟨[], []⟩ 1000 (1/60) hitState).map
      fun s => s.player.attackDir) = some "right" ∧
    hitState.ghost.x = 85 ∧
    ((step 100 100 baseEnv ⟨[], []⟩ 1000 (1/60) hitState).map
      fun s => s.ghost.x) = some (-2363/30) ∧
    (-2363/30 : ℚ) < 85 := by
  have hstep := step_run 100 100 baseEnv ⟨[], []⟩ 1000 (1/60) hitState hitState
    (postGen_fixed _ _ rfl rfl rfl (by norm_num [hitState, baseState])) rfl rfl rfl
  have hs1 : (("calm" : String) = "spawn") = False := eq_false (by decide)
  have hs2 : (("calm" : String) = "lunge") = False := eq_false (by decide)
  have hs3 : (("right" : String) = "right") = True := eq_true rfl
  refine ⟨?_, rfl, ?_, by norm_num⟩ <;>
    · rw [hstep]
      simp only [Option.map_some']
      norm_num [runBody, preCombat, prePickup, combatAndCatch, comboDecay, hitPhase,
        hitBoxFor, updateGhost, ghostCore, expiryPhase, pickupPhase, attackDirPhase,
        jumpResolve, jumpCutPhase, jumpHeld, fallCheck, triggerGameOver,
        resolveCollisions, landable, physIntegrate, phaseOf, ghostChaseFactor,
        phaseChaseMult, lungeChance, lerp, clamp, aabb, playerBoxOf, ghostBoxOf,
        GRAVITY, JUMP_BUFFER, MOVE_AIR, MOVE_GROUND, COYOTE_TIME, JUMP_V, JUMP_CUT,
        hs1, hs2, hs3, hitState, baseState, basePlayer, baseGhost, baseEnv, groundY,
        List.find?]

/-- Witness for `c7_knockback_leftward` on the concrete `hitState` tick. -/
theorem c7_knockback_leftward_witness :
    hitState.started = true ∧
    (let d := preCombat 100 baseEnv ⟨[], []⟩ 1000 (1/60)
        ((1000 - hitState.startedAt) / 1000) hitState
     let e := comboDecay 1000 d
     let combo2 := clamp (e.player.combo + 1) 1 12
     let push := 150 + combo2 * 14 + (if e.player.rainbow then (40 : ℚ) else 0)
     ((step 100 100 baseEnv ⟨[], []⟩ 1000 (1/60) hitState).map fun s => s.ghost.x) =
        some (d.ghost.x - push) ∧
     d.ghost.x - push < d.ghost.x) := by
  have hs1 : (("calm" : String) = "spawn") = False := eq_false (by decide)
  have hs2 : (("calm" : String) = "lunge") = False := eq_false (by decide)
  have hs3 : (("right" : String) = "right") = True := eq_true rfl
  have hwin : (1000 : ℚ) < (comboDecay 1000 (preCombat 100 baseEnv ⟨[], []⟩ 1000 (1/60)
      ((1000 - hitState.startedAt) / 1000) hitState)).player.attackUntil := by
    norm_num [preCombat, prePickup, comboDecay, updateGhost, ghostCore, expiryPhase,
      pickupPhase, attackDirPhase, jumpResolve, jumpCutPhase, jumpHeld, fallCheck,
      triggerGameOver, resolveCollisions, landable, physIntegrate, phaseOf,
      ghostChaseFactor, phaseChaseMult, lungeChance, lerp, clamp, aabb,
      GRAVITY, JUMP_BUFFER, MOVE_AIR, MOVE_GROUND, COYOTE_TIME, hs1, hs2, hs3,
      hitState, baseState, basePlayer, baseGhost, baseEnv, groundY, List.find?]
  have hbox : hitBoxFor (comboDecay 1000 (preCombat 100 baseEnv ⟨[], []⟩ 1000 (1/60)
      ((1000 - hitState.startedAt) / 1000) hitState)).player =
      some ⟨82, 2891/36 + 4, 20, 10⟩ := by
    norm_num [preCombat, prePickup, comboDecay, updateGhost, ghostCore, expiryPhase,
      pickupPhase, attackDirPhase, jumpResolve, jumpCutPhase, jumpHeld, fallCheck,
      triggerGameOver, resolveCollisions, landable, physIntegrate, phaseOf,
      ghostChaseFactor, phaseChaseMult, lungeChance, lerp, clamp, aabb, hitBoxFor,
      GRAVITY, JUMP_BUFFER, MOVE_AIR, MOVE_GROUND, COYOTE_TIME, hs1, hs2, hs3,
      hitState, baseState, basePlayer, baseGhost, baseEnv, groundY, List.find?]
  have hov : aabb ⟨82, 2891/36 + 4, 20, 10⟩
      (ghostBoxOf (preCombat 100 baseEnv ⟨[], []⟩ 1000 (1/60)
        ((1000 - hitState.startedAt) / 1000) hitState).ghost) := by
    norm_num [preCombat, prePickup, updateGhost, ghostCore, expiryPhase,
      pickupPhase, attackDirPhase, jumpResolve, jumpCutPhase, jumpHeld, fallCheck,
      triggerGameOver, resolveCollisions, landable, physIntegrate, phaseOf,
      ghostChaseFactor, phaseChaseMult, lungeChance, lerp, clamp, aabb, ghostBoxOf,
      GRAVITY, JUMP_BUFFER, MOVE_AIR, MOVE_GROUND, COYOTE_TIME, hs1, hs2, hs3,
      hitState, baseState, basePlayer, baseGhost, baseEnv, groundY, List.find?]
  have h := c7_knockback_leftward 100 100 baseEnv ⟨[], []⟩ 1000 (1/60)
    hitState hitState ⟨82, 2891/36 + 4, 20, 10⟩
    (postGen_fixed _ _ rfl rfl rfl (by norm_num [hitState, baseState]))
    rfl rfl rfl hwin hbox hov
  exact ⟨rfl, h.1, h.2.2.2.2.2⟩

end GhostChase
